import Mathlib

/-!
Verification development for the Library-Management-System lending core.

The definitions below are a shallow embedding of the lending services in
`src/app/services` (`srv_borrow.py`, `srv_return.py`, `srv_penalty.py`,
`srv_history.py`, `srv_librarian_management.py`) and of the infraction sweep in
`src/app/core/dependencies.py`.

Modelling conventions, chosen once and used throughout:

* Database rows are records in lists inside one `LibState`; SQLAlchemy's
  `query(...).first()` is `List.find?`, `.all()` is `List.filter`, a mutation
  of a fetched row is a `List.map` that rewrites the rows with the matching
  primary key.  Generated primary keys (`uuid4` in the source) are drawn from
  the `next_id` counter.
* A service method is a function `... → LibState → OpResult`; `.err code s'`
  models `raise HTTPException(status_code=code)` with `s'` the state that was
  *committed* at that point (the request-scoped session rolls uncommitted
  changes back, so almost every error carries the unchanged input state; the
  exceptions are the paths that `db.session.commit()` before raising, which
  are modelled with the mutated state).
* `datetime` values are a calendar day index plus a minute-of-day; comparison
  is lexicographic, and `(a.date() - b.date()).days` is the day difference.
  The source mixes naive and timezone-aware clocks; the embedding uses a
  single clock `LibState.now`.
* The services address readers through `Reader`/`User` lookups that the HTTP
  layer resolves; the embedding passes `reader_id` directly and keeps the
  existence checks the service itself performs.
* The fee figures that `srv_penalty.py` renders into the free-text
  `description` column (and later re-parses with a regex) are modelled as the
  integer field `desc_amount` of a penalty row.  All money amounts in the
  source are integral multiples of 1 VND, so `Nat` replaces `float`
  (`1.5 * price` becomes `price * 3 / 2`).
* The SQLAlchemy models in `src/app/models` do not declare several members the
  services dereference (no `CardStatusEnum.blocked`, no
  `ReadingCard.infraction_count`, no `BorrowStatusEnum.pending_return`/`lost`,
  no `BorrowSlipDetail.status`/`real_return_date`); the services and the
  alembic migration treat them as present.  The operational embedding below
  follows the services' effective data model; the declared/declared-missing
  gap itself is recorded separately by the `declared*`/`referenced*` lists
  near the end of the definitions.
* `BookTitle.category` is a relationship to a `Category` row in the source;
  the embedding stores the category name string that the comparison with
  `"Rare"` in `create_borrow_request` is meant to test.
-/

namespace LMS

/-- Calendar timestamp: day index and minute-of-day.  Stands for the
`datetime` values the services compare and subtract. -/
structure DT where
  day : Int
  minute : Nat
deriving DecidableEq

/-- Strict `datetime` comparison `a < b` (lexicographic on day, then time). -/
def dtLt (a b : DT) : Bool :=
  decide (a.day < b.day) || (decide (a.day = b.day) && decide (a.minute < b.minute))

/-- Day difference `(b.date() - a.date()).days`. -/
def dayDiff (a b : DT) : Int := b.day - a.day

/-- Shift a timestamp by whole days (`timedelta(days=n)`). -/
def addDays (a : DT) (n : Int) : DT := { a with day := a.day + n }

/-- Card types from `CardTypeEnum` (src/app/models/model_reading_card.py). -/
inductive CardType where
  | standard
  | vip
deriving DecidableEq

/-- Card statuses as the lending services use them.  The declared
`CardStatusEnum` lacks `blocked`; see `declaredCardStatusValues` below. -/
inductive CardStatus where
  | active
  | expired
  | suspended
  | blocked
deriving DecidableEq

/-- Per-slip and per-item statuses as the lending services use them.  The
declared `BorrowStatusEnum` lacks `pending_return` and `lost`; see
`declaredBorrowStatusValues` below. -/
inductive BorrowStatus where
  | pending
  | active
  | returned
  | overdue
  | rejected
  | pending_return
  | lost
deriving DecidableEq

/-- Penalty kinds from `PenaltyTypeEnum` (src/app/models/model_penalty.py). -/
inductive PenaltyType where
  | late
  | damage
  | lost
deriving DecidableEq

/-- Penalty statuses from `PenaltyStatusEnum`. -/
inductive PenaltyStatus where
  | pending
  | paid
  | cancelled
deriving DecidableEq

/-- One physical copy (`Book` in src/app/models/model_book.py).  Note the
model declares no `price` column; see `bookPriceAttrDefault`. -/
structure Book where
  book_id : Nat
  book_title_id : Nat
  condition : String
  being_borrowed : Bool
deriving DecidableEq

/-- One catalog title (`BookTitle` in src/app/models/model_book_title.py);
`category` holds the name of the related `Category` row. -/
structure BookTitle where
  book_title_id : Nat
  name : String
  category : String
  price : Nat
deriving DecidableEq

/-- A reader row (`Reader` in src/app/models/model_reader.py). -/
structure Reader where
  reader_id : Nat
  total_borrowed : Nat
deriving DecidableEq

/-- A reading card, with the `infraction_count` the services read and write. -/
structure ReadingCard where
  reader_id : Nat
  card_type : CardType
  status : CardStatus
  infraction_count : Nat
deriving DecidableEq

/-- A borrow slip (`BorrowSlip`); one per submission batch. -/
structure BorrowSlip where
  bs_id : Nat
  reader_id : Nat
  librarian_id : Option Nat
  borrow_date : DT
  status : BorrowStatus
deriving DecidableEq

/-- A borrow slip line (`BorrowSlipDetail`).  Per the source comments,
`return_date` is the DUE date and `real_return_date` the actual return. -/
structure BorrowSlipDetail where
  id : Nat
  borrow_slip_id : Nat
  book_id : Nat
  status : BorrowStatus
  return_date : Option DT
  real_return_date : Option DT
deriving DecidableEq

/-- A penalty row (`PenaltySlip`); `desc_amount` is the VND figure the source
embeds in (and re-parses from) the `description` text. -/
structure PenaltySlip where
  penalty_id : Nat
  borrow_detail_id : Nat
  penalty_type : PenaltyType
  desc_amount : Nat
  status : PenaltyStatus
deriving DecidableEq

/-- The persisted state all services read and write, plus the clock and the
fresh-id counter. -/
structure LibState where
  titles : List BookTitle
  books : List Book
  readers : List Reader
  cards : List ReadingCard
  slips : List BorrowSlip
  details : List BorrowSlipDetail
  penalties : List PenaltySlip
  now : DT
  next_id : Nat
deriving DecidableEq

/-- Result of one service call: success, or an `HTTPException` with its status
code; both carry the committed state. -/
inductive OpResult where
  | ok (s : LibState)
  | err (code : Nat) (s : LibState)
deriving DecidableEq

/-- The state a call left behind, whether it succeeded or raised. -/
def OpResult.state : OpResult → LibState
  | .ok s => s
  | .err _ s => s

/-- `query(ReadingCard).filter(reader_id == rid).first()`. -/
def findCard (s : LibState) (rid : Nat) : Option ReadingCard :=
  s.cards.find? (fun c => c.reader_id == rid)

/-- `query(Reader).filter(reader_id == rid).first() is not None`. -/
def readerExists (s : LibState) (rid : Nat) : Bool :=
  s.readers.any (fun r => r.reader_id == rid)

/-- `query(BorrowSlip).filter(bs_id == bsId).first()`. -/
def findSlip (s : LibState) (bsId : Nat) : Option BorrowSlip :=
  s.slips.find? (fun sl => sl.bs_id == bsId)

/-- `query(BorrowSlipDetail).filter(id == detailId).first()`. -/
def findDetail (s : LibState) (detailId : Nat) : Option BorrowSlipDetail :=
  s.details.find? (fun d => d.id == detailId)

/-- `query(Book).filter(book_id == bid).first()`. -/
def findBook (s : LibState) (bid : Nat) : Option Book :=
  s.books.find? (fun b => b.book_id == bid)

/-- `query(BookTitle).filter(book_title_id == tid).first()`. -/
def findTitle (s : LibState) (tid : Nat) : Option BookTitle :=
  s.titles.find? (fun t => t.book_title_id == tid)

/-- Slip ownership join used by the return endpoints:
`query(BorrowSlip).filter(bs_id == bsId, reader_id == rid).first()`. -/
def findOwnedSlip (s : LibState) (bsId rid : Nat) : Option BorrowSlip :=
  s.slips.find? (fun sl => sl.bs_id == bsId && sl.reader_id == rid)

/-- All lines of one slip: `query(BorrowSlipDetail).filter(borrow_slip_id)`. -/
def slipDetails (s : LibState) (bsId : Nat) : List BorrowSlipDetail :=
  s.details.filter (fun d => d.borrow_slip_id == bsId)

/-- Join deciding whether a detail row belongs to reader `rid`. -/
def detailOfReader (s : LibState) (rid : Nat) (d : BorrowSlipDetail) : Bool :=
  s.slips.any (fun sl => sl.bs_id == d.borrow_slip_id && sl.reader_id == rid)

/-- Rewrite the (1:1) card row of reader `rid`. -/
def updateCard (rid : Nat) (f : ReadingCard → ReadingCard) (cards : List ReadingCard) :
    List ReadingCard :=
  cards.map (fun c => if c.reader_id == rid then f c else c)

/-- Rewrite one slip's status. -/
def setSlipStatus (bsId : Nat) (st : BorrowStatus) (slips : List BorrowSlip) :
    List BorrowSlip :=
  slips.map (fun sl => if sl.bs_id == bsId then { sl with status := st } else sl)

/-- The statuses `get_currently_borrowed_books` treats as a live loan. -/
def isCurrentlyBorrowedStatus : BorrowStatus → Bool
  | .active => true
  | .overdue => true
  | .pending_return => true
  | _ => false

/-- The per-book `is_overdue` flag of `get_currently_borrowed_books`: a due
date exists and the clock is past it. -/
def detailIsOverdue (now : DT) (d : BorrowSlipDetail) : Bool :=
  match d.return_date with
  | some due => dtLt due now
  | none => false

/-- `HistoryService.get_overdue_books(...)["total_overdue"]`: live-loan lines
of the reader whose due date has passed. -/
def overdueCount (s : LibState) (rid : Nat) : Nat :=
  (s.details.filter (fun d =>
    detailOfReader s rid d && isCurrentlyBorrowedStatus d.status &&
      detailIsOverdue s.now d)).length

/-! ## Penalty engine (srv_penalty.py, and the inline computation in
srv_return.py) -/

/-- Per-day late rate, `FINE_RATES["late_per_day"]`. -/
def late_per_day : Nat := 5000

/-- `FINE_RATES["damage_min"]`. -/
def damage_min : Nat := 50000

/-- `FINE_RATES["damage_max"]`. -/
def damage_max : Nat := 500000

/-- What `getattr(book, "price", 100000)` evaluates to: the `Book` model
declares no `price` column, so the default is always taken. -/
def bookPriceAttrDefault : Nat := 100000

/-- Days overdue as computed in `ReturnService.process_return`:
`(return_datetime.date() - due_date.date()).days if is_overdue else 0`. -/
def daysOverdueProc (due comp : DT) : Nat :=
  if dtLt due comp then (dayDiff due comp).toNat else 0

/-- The day-count part of the fee of `ReturnService.process_return`:
`base = days * 5000`; above 30 days the book price (when present and nonzero,
`if book_price:`) is added. -/
def processLateFeeOfDays (days : Nat) (bookPrice : Option Nat) : Nat :=
  let base := days * late_per_day
  if 30 < days then base + bookPrice.getD 0 else base

/-- Late fee computed inline by `ReturnService.process_return`
(src/app/services/srv_return.py lines 183-200). -/
def processLateFee (due comp : DT) (bookPrice : Option Nat) : Nat :=
  if dtLt due comp then processLateFeeOfDays (dayDiff due comp).toNat bookPrice
  else 0

/-- Fee amount of `PenaltyService.calculate_current_late_fine`
(src/app/services/srv_penalty.py lines 41-78): `days_overdue * 5000` whenever
the comparison date is past the due date, with no over-30-days surcharge. -/
def calculate_current_late_fine (due comp : DT) : Nat :=
  if dtLt due comp then (dayDiff due comp).toNat * late_per_day else 0

/-- Modelled from the spec (§4.4): `late_fee(due_date, completion_or_now,
per_day_rate, item_price)` with `days_overdue = max(0, days_between(...))`,
zero at zero days, `days * rate` up to 30 days, and `days * rate + item_price`
beyond 30 days.  Written from the spec's words for comparison with the
code-derived `processLateFee`. -/
def spec_late_fee (due comp : DT) (rate price : Nat) : Nat :=
  let days : Int := max 0 (dayDiff due comp)
  if days = 0 then 0
  else
    let base := days.toNat * rate
    if 30 < days then base + price else base

/-- The `book_price` variable of `process_return`: the related title's price
when present and truthy, else `None`. -/
def titlePriceOpt (s : LibState) (tid : Nat) : Option Nat :=
  match findTitle s tid with
  | some t => if t.price == 0 then none else some t.price
  | none => none

/-- Category name of a copy's title, as tested against `"Rare"` by
`create_borrow_request`. -/
def titleCategory (s : LibState) (tid : Nat) : String :=
  match findTitle s tid with
  | some t => t.category
  | none => ""

/-- Whether a penalty of the given kind already exists for a detail row
(the existence check of `create_damage_penalty` / `create_lost_penalty`). -/
def hasPenaltyOfType (s : LibState) (detailId : Nat) (pt : PenaltyType) : Bool :=
  s.penalties.any (fun p => p.borrow_detail_id == detailId && p.penalty_type == pt)

/-! ## BorrowService (srv_borrow.py) -/

/-- The copy-allocation loop of `BorrowService.create_borrow_request`: for
each requested title pick the first copy of that title that is not on loan and
not already picked by an earlier line of this request
(`selected_physical_ids`); fail 404 when no copy is left, 403 when the title
is rare and the card is not VIP.  Returns the accumulated list of assigned
copy ids (`.inr`) or the failing HTTP code (`.inl`). -/
def allocateBooks (s : LibState) (card : ReadingCard) :
    List Nat → List Nat → Sum Nat (List Nat)
  | [], selected => .inr selected
  | titleId :: rest, selected =>
    match s.books.find? (fun b =>
        b.book_title_id == titleId && !b.being_borrowed &&
          !(selected.contains b.book_id)) with
    | none => .inl 404
    | some book =>
      if card.card_type != CardType.vip && titleCategory s book.book_title_id == "Rare" then
        .inl 403
      else
        allocateBooks s card rest (selected ++ [book.book_id])

/-- `BorrowService.create_borrow_request` (src/app/services/srv_borrow.py
lines 66-178).  Note the auto-suspend path commits the card mutation before
raising 403; every other failure leaves the committed state unchanged. -/
def create_borrow_request (titleIds : List Nat) (rid : Nat) (s : LibState) : OpResult :=
  match findCard s rid with
  | none => .err 403 s
  | some card =>
    if !(readerExists s rid) then .err 404 s
    else
      let overdue := overdueCount s rid
      if 0 < overdue && card.status == CardStatus.active then
        .err 403 { s with
          cards := updateCard rid (fun c => { c with status := .suspended }) s.cards }
      else if card.status == CardStatus.blocked then .err 403 s
      else if card.status == CardStatus.suspended then .err 403 s
      else if card.status != CardStatus.active then .err 403 s
      else
        match allocateBooks s card titleIds [] with
        | .inl code => .err code s
        | .inr picks =>
          let bsId := s.next_id
          let slip : BorrowSlip :=
            { bs_id := bsId, reader_id := rid, librarian_id := none,
              borrow_date := s.now, status := .pending }
          let newDetails := picks.enum.map (fun p =>
            ({ id := s.next_id + 1 + p.1, borrow_slip_id := bsId, book_id := p.2,
               status := BorrowStatus.pending, return_date := none,
               real_return_date := none } : BorrowSlipDetail))
          .ok { s with
            slips := s.slips ++ [slip]
            details := s.details ++ newDetails
            next_id := s.next_id + 1 + picks.length }

/-- The detail loop of `BorrowService.approve_borrow_request`: walk the slip's
lines; a line whose copy is already on loan aborts the whole call with 409
(`none`, transaction rolled back); otherwise the copy is flagged on loan and
the line is collected for activation.  A line whose copy row is missing is
skipped (`if book:`). -/
def approveLoop : List BorrowSlipDetail → List Book → Option (List Book × List Nat)
  | [], books => some (books, [])
  | d :: rest, books =>
    match books.find? (fun b => b.book_id == d.book_id) with
    | none => approveLoop rest books
    | some b =>
      if b.being_borrowed then none
      else
        let books' := books.map (fun bb =>
          if bb.book_id == d.book_id then { bb with being_borrowed := true } else bb)
        match approveLoop rest books' with
        | none => none
        | some (bs2, ids) => some (bs2, d.id :: ids)

/-- `BorrowService.approve_borrow_request` (src/app/services/srv_borrow.py
lines 180-275).  A blocked or suspended card auto-rejects the slip and commits
before raising 403; a missing card makes the subsequent `card.card_type`
dereference crash (500, rolled back); a copy taken in the meantime yields 409
with no committed change. -/
def approve_borrow_request (bsId libId : Nat) (s : LibState) : OpResult :=
  match findSlip s bsId with
  | none => .err 404 s
  | some slip =>
    if slip.status != BorrowStatus.pending then .err 400 s
    else
      match findCard s slip.reader_id with
      | none => .err 500 s
      | some card =>
        if card.status == CardStatus.blocked then
          .err 403 { s with slips := setSlipStatus bsId .rejected s.slips }
        else if card.status == CardStatus.suspended then
          if !(readerExists s slip.reader_id) then .err 404 s
          else .err 403 { s with slips := setSlipStatus bsId .rejected s.slips }
        else
          let loanDays : Int := if card.card_type == CardType.vip then 60 else 45
          let due := addDays s.now loanDays
          let ds := slipDetails s bsId
          match approveLoop ds s.books with
          | none => .err 409 s
          | some (books', activatedIds) =>
            let details' := s.details.map (fun d =>
              if activatedIds.contains d.id then
                { d with status := .active, return_date := some due }
              else d)
            let slips' := s.slips.map (fun sl =>
              if sl.bs_id == bsId then
                { sl with status := .active, librarian_id := some libId }
              else sl)
            let readers' := s.readers.map (fun r =>
              if r.reader_id == slip.reader_id then
                { r with total_borrowed := r.total_borrowed + ds.length }
              else r)
            .ok { s with
              books := books'
              details := details'
              slips := slips'
              readers := readers' }

/-- `BorrowService.reject_borrow_request` (src/app/services/srv_borrow.py
lines 277-308): a pending slip and all its lines become Rejected and every
line's copy is released. -/
def reject_borrow_request (bsId libId : Nat) (s : LibState) : OpResult :=
  match findSlip s bsId with
  | none => .err 404 s
  | some slip =>
    if slip.status != BorrowStatus.pending then .err 400 s
    else
      let bookIds := (slipDetails s bsId).map (fun d => d.book_id)
      .ok { s with
        slips := setSlipStatus bsId .rejected s.slips,
        details := s.details.map (fun d =>
          if d.borrow_slip_id == bsId then { d with status := .rejected } else d),
        books := s.books.map (fun b =>
          if bookIds.contains b.book_id then { b with being_borrowed := false } else b) }

/-- `BorrowService.cancel_borrow_request` (src/app/services/srv_borrow.py
lines 310-340): after the ownership check, every line's copy is released and
the lines and the slip are deleted.  The source checks no slip status. -/
def cancel_borrow_request (bsId rid : Nat) (s : LibState) : OpResult :=
  match findSlip s bsId with
  | none => .err 404 s
  | some slip =>
    if slip.reader_id != rid then .err 403 s
    else
      let bookIds := (slipDetails s bsId).map (fun d => d.book_id)
      .ok { s with
        books := s.books.map (fun b =>
          if bookIds.contains b.book_id then { b with being_borrowed := false } else b),
        details := s.details.filter (fun d => d.borrow_slip_id != bsId),
        slips := s.slips.filter (fun sl => sl.bs_id != bsId) }

/-! ## ReturnService (srv_return.py) -/

/-- `ReturnService.request_return` (src/app/services/srv_return.py lines
22-64): an Active or Overdue line of the caller's own slip becomes
PendingReturn. -/
def request_return (detailId rid : Nat) (s : LibState) : OpResult :=
  match findDetail s detailId with
  | none => .err 404 s
  | some detail =>
    if !(readerExists s rid) then .err 404 s
    else
      match findOwnedSlip s detail.borrow_slip_id rid with
      | none => .err 404 s
      | some _ =>
        if detail.status != BorrowStatus.active &&
            detail.status != BorrowStatus.overdue then .err 400 s
        else
          .ok { s with details := s.details.map (fun d =>
            if d.id == detailId then { d with status := .pending_return } else d) }

/-- `ReturnService.cancel_return_request` (src/app/services/srv_return.py
lines 66-115): a PendingReturn line reverts to Overdue or Active depending on
the clock versus the due date.  A missing due date crashes on
`due_date.tzinfo` (500, rolled back). -/
def cancel_return_request (detailId rid : Nat) (s : LibState) : OpResult :=
  match findDetail s detailId with
  | none => .err 404 s
  | some detail =>
    if !(readerExists s rid) then .err 404 s
    else
      match findOwnedSlip s detail.borrow_slip_id rid with
      | none => .err 403 s
      | some _ =>
        if detail.status != BorrowStatus.pending_return then .err 400 s
        else
          match detail.return_date with
          | none => .err 500 s
          | some due =>
            let st := if dtLt due s.now then BorrowStatus.overdue else BorrowStatus.active
            .ok { s with details := s.details.map (fun d =>
              if d.id == detailId then { d with status := st } else d) }

/-- The auto-unsuspend tail of `ReturnService.process_return` (lines
269-289): when the owning reader's card is currently Suspended, the reader
row exists, and the post-update state (`s1`) has no remaining overdue line,
the card is restored to Active; otherwise the card table is untouched. -/
def autoUnsuspendCards (s s1 : LibState) (rid : Nat) : List ReadingCard :=
  match findCard s rid with
  | some rc =>
    if rc.status == CardStatus.suspended && readerExists s rid &&
        overdueCount s1 rid == 0 then
      updateCard rid (fun c => { c with status := .active }) s.cards
    else s.cards
  | none => s.cards

/-- `ReturnService.process_return` (src/app/services/srv_return.py lines
117-319).  Faithfully embedded quirks: (a) the lost-condition fee uses
`getattr(book, "price", 100000)` although `Book` has no `price` column, so the
default 100000 always replaces the title price fetched a few lines earlier;
(b) the penalty block calls `create_late_penalty` with an unexpected
`book_price` keyword, so whenever `late_fee > 0` that call raises `TypeError`,
the surrounding `except` swallows it, and no penalty row of any kind is
created; (c) a pre-existing damage/lost penalty raises inside the same
`try` and is likewise swallowed. -/
def process_return (detailId : Nat) (condition : String) (hasDamageDesc : Bool)
    (customFine : Option Nat) (s : LibState) : OpResult :=
  if condition != "good" && condition != "damaged" && condition != "lost" then .err 400 s
  else if condition == "damaged" && !hasDamageDesc then .err 400 s
  else
    match findDetail s detailId with
    | none => .err 404 s
    | some detail =>
      match findSlip s detail.borrow_slip_id with
      | none => .err 404 s
      | some slip =>
        if detail.status != BorrowStatus.pending_return then .err 400 s
        else
          match findBook s detail.book_id with
          | none => .err 404 s
          | some book =>
            let bookPrice := titlePriceOpt s book.book_title_id
            match detail.return_date with
            | none => .err 400 s
            | some due =>
              let lateFee := processLateFee due s.now bookPrice
              let conditionFee : Nat :=
                if condition == "damaged" then customFine.getD 50000
                else if condition == "lost" then
                  customFine.getD (bookPriceAttrDefault * 3 / 2)
                else 0
              let newStatus :=
                if condition == "lost" then BorrowStatus.lost else BorrowStatus.returned
              let details' := s.details.map (fun d =>
                if d.id == detailId then
                  { d with real_return_date := some s.now, status := newStatus }
                else d)
              let books' := s.books.map (fun b =>
                if b.book_id == detail.book_id then
                  { b with condition := condition, being_borrowed := false }
                else b)
              let penalties' :=
                if 0 < lateFee then s.penalties
                else if condition == "damaged" then
                  (if hasPenaltyOfType s detailId .damage then s.penalties
                   else s.penalties ++
                     [{ penalty_id := s.next_id, borrow_detail_id := detailId,
                        penalty_type := .damage,
                        desc_amount := max damage_min (min conditionFee damage_max),
                        status := .pending }])
                else if condition == "lost" then
                  (if hasPenaltyOfType s detailId .lost then s.penalties
                   else s.penalties ++
                     [{ penalty_id := s.next_id, borrow_detail_id := detailId,
                        penalty_type := .lost, desc_amount := conditionFee,
                        status := .pending }])
                else s.penalties
              let readers' := s.readers.map (fun r =>
                if r.reader_id == slip.reader_id then
                  { r with total_borrowed := r.total_borrowed - 1 }
                else r)
              let allReturned := (details'.filter
                  (fun d => d.borrow_slip_id == slip.bs_id)).all
                (fun d => d.status == BorrowStatus.returned || d.status == BorrowStatus.lost)
              let slips' :=
                if allReturned then setSlipStatus slip.bs_id .returned s.slips else s.slips
              let s1 : LibState :=
                { s with
                  details := details'
                  books := books'
                  penalties := penalties'
                  readers := readers'
                  slips := slips'
                  next_id := s.next_id + 1 }
              .ok { s1 with cards := autoUnsuspendCards s s1 slip.reader_id }

/-! ## Infraction sweep (core/dependencies.py) and history auto-update
(srv_history.py) -/

/-- Detail rows the sweep considers unreturned: the reader's lines whose
status is not Returned, Lost or Rejected. -/
def unreturnedOf (s : LibState) (rid : Nat) : List BorrowSlipDetail :=
  s.details.filter (fun d => detailOfReader s rid d &&
    !(d.status == BorrowStatus.returned || d.status == BorrowStatus.lost ||
      d.status == BorrowStatus.rejected))

/-- First-pass predicate of `_process_reader_infractions`: due date present,
past, and at least 30 days past. -/
def over30 (now : DT) (d : BorrowSlipDetail) : Bool :=
  match d.return_date with
  | some due => dtLt due now && decide (30 ≤ dayDiff due now)
  | none => false

/-- The guard of the second-pass infraction increment: due date present and
past, more than 5 days past, and the line still Active. -/
def sweepIncrementEligible (now : DT) (d : BorrowSlipDetail) : Bool :=
  match d.return_date with
  | some due => dtLt due now && decide (5 < dayDiff due now) &&
      d.status == BorrowStatus.active
  | none => false

/-- Second pass of `_process_reader_infractions` (src/app/core/dependencies.py
lines 222-247), returning `(flipped ids, final count, has_overdue, broke)`:
each line past due (`detailIsOverdue`) sets `has_overdue`; a line more than 5
days past due *and still Active* (`sweepIncrementEligible`; under an overdue
line this is exactly the source's `days_overdue > 5 and status == active`
test) is flipped to Overdue and counts one infraction; reaching 3 infractions
stops the loop (`break`, `broke = true`). -/
def sweepPass2 (now : DT) : Nat → List BorrowSlipDetail → List Nat × Nat × Bool × Bool
  | cnt, [] => ([], cnt, false, false)
  | cnt, d :: rest =>
    if detailIsOverdue now d then
      if sweepIncrementEligible now d then
        if 3 ≤ cnt + 1 then ([d.id], cnt + 1, true, true)
        else
          let r := sweepPass2 now (cnt + 1) rest
          (d.id :: r.1, r.2.1, true, r.2.2.2)
      else
        let r := sweepPass2 now cnt rest
        (r.1, r.2.1, true, r.2.2.2)
    else sweepPass2 now cnt rest

/-- `_process_reader_infractions` (src/app/core/dependencies.py lines
137-277).  A missing or already-Blocked card returns with no change; a line
≥ 30 days past due blocks the card at once (first pass, short-circuiting the
second); otherwise the second pass runs and the card is then blocked (3
infractions reached), suspended (some overdue line), restored to Active
(no overdue line and currently Suspended) or left alone. -/
def process_reader_infractions (rid : Nat) (s : LibState) : LibState :=
  match findCard s rid with
  | none => s
  | some card =>
    if card.status == CardStatus.blocked then s
    else
      let unret := unreturnedOf s rid
      if unret.any (over30 s.now) then
        { s with cards := updateCard rid (fun c => { c with status := .blocked }) s.cards }
      else
        let r := sweepPass2 s.now card.infraction_count unret
        let details' := s.details.map (fun d =>
          if r.1.contains d.id then { d with status := .overdue } else d)
        let cards1 := updateCard rid (fun c => { c with infraction_count := r.2.1 }) s.cards
        let cards2 :=
          if r.2.2.2 then
            updateCard rid (fun c => { c with status := .blocked }) cards1
          else if r.2.2.1 && card.status != CardStatus.suspended then
            updateCard rid (fun c => { c with status := .suspended }) cards1
          else if !r.2.2.1 && card.status == CardStatus.suspended then
            updateCard rid (fun c => { c with status := .active }) cards1
          else cards1
        { s with details := details', cards := cards2 }

/-- Step 1 of `HistoryService.get_borrow_history` (src/app/services/
srv_history.py lines 144-163): every Active line of the reader whose due date
has passed is flipped to Overdue in the database — with no infraction
increment and no 5-day grace. -/
def history_auto_update (rid : Nat) (s : LibState) : LibState :=
  if !(readerExists s rid) then s
  else
    { s with details := s.details.map (fun d =>
      if detailOfReader s rid d && d.status == BorrowStatus.active &&
          detailIsOverdue s.now d then
        { d with status := .overdue }
      else d) }

/-! ## LibrarianManagementService (srv_librarian_management.py) -/

/-- `LibrarianManagementService.remove_ban` (src/app/services/
srv_librarian_management.py lines 218-293): the administrative unban; only a
Suspended or Blocked card qualifies, and it is always set to Active. -/
def remove_ban (rid : Nat) (s : LibState) : OpResult :=
  if !(readerExists s rid) then .err 404 s
  else
    match findCard s rid with
    | none => .err 404 s
    | some card =>
      if card.status != CardStatus.suspended && card.status != CardStatus.blocked then
        .err 400 s
      else
        .ok { s with cards := updateCard rid (fun c => { c with status := .active }) s.cards }

/-! ## The non-administrative operation alphabet -/

/-- One non-administrative lending operation (everything of §4.3/§4.5 except
the administrative unban). -/
inductive Op where
  | submit (titleIds : List Nat) (readerId : Nat)
  | approve (bsId libId : Nat)
  | reject (bsId libId : Nat)
  | cancel (bsId readerId : Nat)
  | requestReturn (detailId readerId : Nat)
  | cancelReturn (detailId readerId : Nat)
  | processReturn (detailId : Nat) (condition : String) (hasDamageDesc : Bool)
      (customFine : Option Nat)
  | sweep (readerId : Nat)
  | historyUpdate (readerId : Nat)

/-- The state left behind by one non-administrative operation. -/
def applyOp (op : Op) (s : LibState) : LibState :=
  match op with
  | .submit ts r => (create_borrow_request ts r s).state
  | .approve b l => (approve_borrow_request b l s).state
  | .reject b l => (reject_borrow_request b l s).state
  | .cancel b r => (cancel_borrow_request b r s).state
  | .requestReturn d r => (request_return d r s).state
  | .cancelReturn d r => (cancel_return_request d r s).state
  | .processReturn d c h f => (process_return d c h f s).state
  | .sweep r => process_reader_infractions r s
  | .historyUpdate r => history_auto_update r s

/-- Observed status of a reader's card. -/
def cardStatus (s : LibState) (rid : Nat) : Option CardStatus :=
  (findCard s rid).map (fun c => c.status)

/-- Observed infraction counter of a reader's card. -/
def cardInfractions (s : LibState) (rid : Nat) : Option Nat :=
  (findCard s rid).map (fun c => c.infraction_count)

/-! ## The data model as declared (src/app/models) versus the members the
lending services dereference.  These lists are transcribed from the model
files and the service sources for claim C10. -/

/-- Values of `CardStatusEnum` as declared in
src/app/models/model_reading_card.py lines 12-15. -/
def declaredCardStatusValues : List String := ["Active", "Expired", "Suspended"]

/-- Columns of `ReadingCard` as declared in
src/app/models/model_reading_card.py lines 18-27. -/
def declaredReadingCardColumns : List String :=
  ["card_id", "reader_id", "card_type", "fee", "register_date", "register_office", "status"]

/-- Values of `BorrowStatusEnum` as declared in
src/app/models/model_borrow.py lines 7-12. -/
def declaredBorrowStatusValues : List String :=
  ["Pending", "Active", "Returned", "Overdue", "Rejected"]

/-- Columns of `BorrowSlipDetail` as declared in
src/app/models/model_borrow.py lines 29-35. -/
def declaredBorrowSlipDetailColumns : List String :=
  ["id", "borrow_slip_id", "book_id", "return_date"]

/-- Card-status members the lending services dereference
(`CardStatusEnum.blocked` in srv_borrow.py line 91 among others). -/
def referencedCardStatusValues : List String :=
  ["Active", "Suspended", "Blocked"]

/-- `ReadingCard` fields the lending services dereference
(`card.infraction_count` in srv_borrow.py line 94 among others). -/
def referencedReadingCardColumns : List String :=
  ["reader_id", "card_type", "status", "infraction_count"]

/-- Borrow-status members the lending services dereference
(`BorrowStatusEnum.pending_return` in srv_return.py line 56,
`BorrowStatusEnum.lost` in srv_return.py line 220, among others). -/
def referencedBorrowStatusValues : List String :=
  ["Pending", "Active", "Returned", "Overdue", "Rejected", "PendingReturn", "Lost"]

/-- `BorrowSlipDetail` fields the lending services dereference
(`detail.status` in srv_return.py line 49, `detail.real_return_date` in
srv_return.py line 203, among others). -/
def referencedBorrowSlipDetailColumns : List String :=
  ["id", "borrow_slip_id", "book_id", "status", "return_date", "real_return_date"]

/-! ## Observations and concrete fixtures used by the claim theorems -/

/-- Non-terminal loan statuses (spec §4.3: terminal = Returned, Rejected,
Lost). -/
def nonTerminal : BorrowStatus → Bool
  | .returned => false
  | .rejected => false
  | .lost => false
  | _ => true

/-- Whether a call succeeded. -/
def isOk : OpResult → Bool
  | .ok _ => true
  | .err _ _ => false

/-- Fixture: one title with one free copy and two eligible readers. -/
def twoReaderState : LibState :=
  { titles := [{ book_title_id := 1, name := "T1", category := "General", price := 100000 }]
    books := [{ book_id := 1, book_title_id := 1, condition := "good", being_borrowed := false }]
    readers := [{ reader_id := 1, total_borrowed := 0 }, { reader_id := 2, total_borrowed := 0 }]
    cards := [{ reader_id := 1, card_type := .standard, status := .active, infraction_count := 0 },
              { reader_id := 2, card_type := .standard, status := .active, infraction_count := 0 }]
    slips := [], details := [], penalties := []
    now := { day := 100, minute := 0 }, next_id := 10 }

/-- Fixture: a pending slip whose assigned copy was taken by someone else
between submission and approval. -/
def takenCopyState : LibState :=
  { titles := [{ book_title_id := 1, name := "T1", category := "General", price := 100000 }]
    books := [{ book_id := 1, book_title_id := 1, condition := "good", being_borrowed := true }]
    readers := [{ reader_id := 1, total_borrowed := 0 }]
    cards := [{ reader_id := 1, card_type := .standard, status := .active, infraction_count := 0 }]
    slips := [{ bs_id := 5, reader_id := 1, librarian_id := none,
                borrow_date := { day := 99, minute := 0 }, status := .pending }]
    details := [{ id := 6, borrow_slip_id := 5, book_id := 1, status := .pending,
                  return_date := none, real_return_date := none }]
    penalties := []
    now := { day := 100, minute := 0 }, next_id := 10 }

/-- Fixture: a reader whose card is Active with 3 accumulated infractions and
one line already in Overdue status, 10 days past due. -/
def accumulatedState : LibState :=
  { titles := [{ book_title_id := 1, name := "T1", category := "General", price := 100000 }]
    books := [{ book_id := 1, book_title_id := 1, condition := "good", being_borrowed := true }]
    readers := [{ reader_id := 1, total_borrowed := 1 }]
    cards := [{ reader_id := 1, card_type := .standard, status := .active, infraction_count := 3 }]
    slips := [{ bs_id := 5, reader_id := 1, librarian_id := some 9,
                borrow_date := { day := 80, minute := 0 }, status := .active }]
    details := [{ id := 6, borrow_slip_id := 5, book_id := 1, status := .overdue,
                  return_date := some { day := 90, minute := 0 }, real_return_date := none }]
    penalties := []
    now := { day := 100, minute := 0 }, next_id := 10 }

/-- Fixture: a reader with an Active line 35 days past due and a clean
counter. -/
def thirtyFiveDayState : LibState :=
  { titles := [{ book_title_id := 1, name := "T1", category := "General", price := 100000 }]
    books := [{ book_id := 1, book_title_id := 1, condition := "good", being_borrowed := true }]
    readers := [{ reader_id := 1, total_borrowed := 1 }]
    cards := [{ reader_id := 1, card_type := .standard, status := .active, infraction_count := 0 }]
    slips := [{ bs_id := 5, reader_id := 1, librarian_id := some 9,
                borrow_date := { day := 50, minute := 0 }, status := .active }]
    details := [{ id := 6, borrow_slip_id := 5, book_id := 1, status := .active,
                  return_date := some { day := 65, minute := 0 }, real_return_date := none }]
    penalties := []
    now := { day := 100, minute := 0 }, next_id := 10 }

/-- Fixture: a reader with an Active card and an Active loan line one day past
due (an ineligible submitter for C7). -/
def oneOverdueState : LibState :=
  { titles := [{ book_title_id := 1, name := "T1", category := "General", price := 100000 },
               { book_title_id := 2, name := "T2", category := "General", price := 100000 }]
    books := [{ book_id := 1, book_title_id := 1, condition := "good", being_borrowed := true },
              { book_id := 2, book_title_id := 2, condition := "good", being_borrowed := false }]
    readers := [{ reader_id := 1, total_borrowed := 1 }]
    cards := [{ reader_id := 1, card_type := .standard, status := .active, infraction_count := 0 }]
    slips := [{ bs_id := 5, reader_id := 1, librarian_id := some 9,
                borrow_date := { day := 80, minute := 0 }, status := .active }]
    details := [{ id := 6, borrow_slip_id := 5, book_id := 1, status := .active,
                  return_date := some { day := 99, minute := 0 }, real_return_date := none }]
    penalties := []
    now := { day := 100, minute := 0 }, next_id := 10 }

/-- Fixture: an approved (Active) slip with one Active line, for the
cancellation claim. -/
def activeSlipState : LibState :=
  { titles := [{ book_title_id := 1, name := "T1", category := "General", price := 100000 }]
    books := [{ book_id := 1, book_title_id := 1, condition := "good", being_borrowed := true }]
    readers := [{ reader_id := 1, total_borrowed := 1 }]
    cards := [{ reader_id := 1, card_type := .standard, status := .active, infraction_count := 0 }]
    slips := [{ bs_id := 5, reader_id := 1, librarian_id := some 9,
                borrow_date := { day := 80, minute := 0 }, status := .active }]
    details := [{ id := 6, borrow_slip_id := 5, book_id := 1, status := .active,
                  return_date := some { day := 125, minute := 0 }, real_return_date := none }]
    penalties := []
    now := { day := 100, minute := 0 }, next_id := 10 }

/-- Fixture: a PendingReturn line, not overdue, whose title is priced at
200000 VND. -/
def lostReturnState : LibState :=
  { titles := [{ book_title_id := 1, name := "T1", category := "General", price := 200000 }]
    books := [{ book_id := 1, book_title_id := 1, condition := "good", being_borrowed := true }]
    readers := [{ reader_id := 1, total_borrowed := 1 }]
    cards := [{ reader_id := 1, card_type := .standard, status := .active, infraction_count := 0 }]
    slips := [{ bs_id := 5, reader_id := 1, librarian_id := some 9,
                borrow_date := { day := 80, minute := 0 }, status := .active }]
    details := [{ id := 6, borrow_slip_id := 5, book_id := 1, status := .pending_return,
                  return_date := some { day := 125, minute := 0 }, real_return_date := none }]
    penalties := []
    now := { day := 100, minute := 0 }, next_id := 10 }

/-- Fixture: a reader with a permanently Blocked card holding one live
loan. -/
def blockedReaderState : LibState :=
  { titles := [{ book_title_id := 1, name := "T1", category := "General", price := 100000 }]
    books := [{ book_id := 1, book_title_id := 1, condition := "good", being_borrowed := true }]
    readers := [{ reader_id := 1, total_borrowed := 1 }]
    cards := [{ reader_id := 1, card_type := .standard, status := .blocked, infraction_count := 3 }]
    slips := [{ bs_id := 5, reader_id := 1, librarian_id := some 9,
                borrow_date := { day := 80, minute := 0 }, status := .active }]
    details := [{ id := 6, borrow_slip_id := 5, book_id := 1, status := .overdue,
                  return_date := some { day := 90, minute := 0 }, real_return_date := none }]
    penalties := []
    now := { day := 100, minute := 0 }, next_id := 10 }

/-! # Theorems

General bridging lemmas first, then one theorem per claim (with its
counterexample and witness where required). -/

/-- Unfolding of the strict timestamp order into arithmetic facts. -/
theorem dtLt_iff (a b : DT) :
    dtLt a b = true ↔ (a.day < b.day ∨ (a.day = b.day ∧ a.minute < b.minute)) := by
  simp [dtLt, Bool.or_eq_true, Bool.and_eq_true, decide_eq_true_eq]

/-- A strictly later timestamp is on the same or a later day. -/
theorem day_le_of_dtLt {a b : DT} (h : dtLt a b = true) : a.day ≤ b.day := by
  rcases (dtLt_iff a b).mp h with h' | ⟨h', _⟩ <;> omega

/-- A timestamp that is not strictly later is on the same or an earlier
day. -/
theorem day_le_of_not_dtLt {a b : DT} (h : dtLt a b = false) : b.day ≤ a.day := by
  by_contra hc
  have : dtLt a b = true := (dtLt_iff a b).mpr (Or.inl (by omega))
  simp [this] at h

/-- `find?` over a shape-preserving map is the mapped `find?`. -/
theorem find?_map_pres {α : Type} (g : α → α) (p : α → Bool)
    (hp : ∀ x, p (g x) = p x) :
    ∀ l : List α, (l.map g).find? p = (l.find? p).map g
  | [] => rfl
  | a :: l => by
    by_cases h : p a
    · simp [List.find?_cons_of_pos, h, hp a]
    · have hg : p (g a) = false := by rw [hp a]; exact Bool.not_eq_true _ ▸ (by simpa using h)
      simp only [List.map_cons]
      rw [List.find?_cons_of_neg _ (by simp [hp a, h]), List.find?_cons_of_neg _ (by simpa using h)]
      exact find?_map_pres g p hp l

/-- C3: the two late-fee computations diverge beyond 30 days.  At due day 0,
comparison day 31 and book price 100000, the fee computed by
`ReturnService.process_return` is 255000 VND while
`PenaltyService.calculate_current_late_fine` yields 155000 VND for the same
dates, refuting the claimed equality of the two call sites. -/
theorem C3_counterexample :
    processLateFee { day := 0, minute := 0 } { day := 31, minute := 0 } (some 100000) = 255000 ∧
    calculate_current_late_fine { day := 0, minute := 0 } { day := 31, minute := 0 } = 155000 ∧
    processLateFee { day := 0, minute := 0 } { day := 31, minute := 0 } (some 100000) ≠
      calculate_current_late_fine { day := 0, minute := 0 } { day := 31, minute := 0 } := by
  decide

/-- C3 (amended): the official fee of `process_return` equals the speculative
fee of `calculate_current_late_fine` plus the over-30-days book-price
surcharge that only `process_return` applies; hence the two agree exactly on
loans at most 30 days overdue (or with no recorded price) and differ by the
item price beyond that. -/
theorem C3_amended_theorem (due comp : DT) (price : Option Nat) :
    processLateFee due comp price =
      calculate_current_late_fine due comp +
        (if 30 < daysOverdueProc due comp then price.getD 0 else 0) := by
  unfold processLateFee calculate_current_late_fine daysOverdueProc processLateFeeOfDays
  by_cases h : dtLt due comp
  · simp only [h, if_true]
    by_cases h3 : 30 < (dayDiff due comp).toNat
    · simp [h3]
    · simp [h3]
  · simp [h]

/-- C4: the late fee computed by return processing equals the spec formula
`late_fee` at rate 5000 (the truthiness conversion of a zero price is
harmless since a zero surcharge coincides with no surcharge); the
fee is monotonically non-decreasing in days overdue; and a return exactly at
the due date costs 0. -/
theorem C4_theorem :
    (∀ due comp price, processLateFee due comp (if price == 0 then none else some price) =
        spec_late_fee due comp late_per_day price) ∧
    (∀ d d' price, d ≤ d' → processLateFeeOfDays d price ≤ processLateFeeOfDays d' price) ∧
    (∀ due price, processLateFee due due price = 0) := by
  refine ⟨fun due comp price => ?_, fun d d' price h => ?_, fun due price => ?_⟩
  · have hgd : (if price == 0 then none else some price).getD 0 = price := by
      by_cases hp : price = 0 <;> simp [hp]
    unfold processLateFee spec_late_fee processLateFeeOfDays late_per_day
    by_cases h : dtLt due comp
    · have hd : due.day ≤ comp.day := day_le_of_dtLt h
      have hmax : max 0 (dayDiff due comp) = ((dayDiff due comp).toNat : Int) := by
        unfold dayDiff at *; omega
      simp only [h, if_true, hgd, hmax, Int.toNat_natCast]
      split_ifs <;> omega
    · have hd : comp.day ≤ due.day := day_le_of_not_dtLt (by simpa using h)
      have hmax : max 0 (dayDiff due comp) = 0 := by unfold dayDiff; omega
      simp [h, hmax]
  · unfold processLateFeeOfDays late_per_day
    cases price with
    | none => simp only [Option.getD_none]; split_ifs <;> omega
    | some p => simp only [Option.getD_some]; split_ifs <;> omega
  · have h : dtLt due due = false := by
      by_contra hc
      have := (dtLt_iff due due).mp (by simpa using hc)
      omega
    simp [processLateFee, h]

/-- C4 witness: monotonicity applied at 3 ≤ 31 days with price 100000. -/
theorem C4_witness :
    processLateFeeOfDays 3 (some 100000) ≤ processLateFeeOfDays 31 (some 100000) :=
  C4_theorem.2.1 3 31 (some 100000) (by decide)

/-- C10: the data model as declared does not cover the members the lending
services evaluate: `CardStatusEnum` lacks `Blocked`, `ReadingCard` lacks
`infraction_count`, `BorrowStatusEnum` lacks `PendingReturn` and `Lost`, and
`BorrowSlipDetail` lacks `status` and `real_return_date`, although the
services dereference every one of them. -/
theorem C10_theorem :
    "Blocked" ∈ referencedCardStatusValues ∧ "Blocked" ∉ declaredCardStatusValues ∧
    "infraction_count" ∈ referencedReadingCardColumns ∧
      "infraction_count" ∉ declaredReadingCardColumns ∧
    "PendingReturn" ∈ referencedBorrowStatusValues ∧
      "PendingReturn" ∉ declaredBorrowStatusValues ∧
    "Lost" ∈ referencedBorrowStatusValues ∧ "Lost" ∉ declaredBorrowStatusValues ∧
    "status" ∈ referencedBorrowSlipDetailColumns ∧
      "status" ∉ declaredBorrowSlipDetailColumns ∧
    "real_return_date" ∈ referencedBorrowSlipDetailColumns ∧
      "real_return_date" ∉ declaredBorrowSlipDetailColumns := by
  decide

/-- C1: two successive successful submissions for the same title leave two
LoanItems in non-terminal (Pending) status referencing the same physical
copy — submission neither reserves the copy nor excludes copies already held
by another pending slip, so the claimed at-most-one-non-terminal-item-per-copy
invariant fails. -/
theorem C1_counterexample :
    isOk (create_borrow_request [1] 1 twoReaderState) = true ∧
    isOk (create_borrow_request [1] 2
      (create_borrow_request [1] 1 twoReaderState).state) = true ∧
    ((create_borrow_request [1] 2
        (create_borrow_request [1] 1 twoReaderState).state).state.details.filter
      (fun d => d.book_id == 1 && nonTerminal d.status)).length = 2 := by
  decide

/-- The allocation loop only ever adds copy ids that are not already
selected, so a duplicate-free accumulator stays duplicate-free. -/
theorem allocateBooks_nodup (s : LibState) (card : ReadingCard) :
    ∀ (titles selected : List Nat), selected.Nodup →
      ∀ picks, allocateBooks s card titles selected = .inr picks → picks.Nodup
  | [], selected, hsel, picks, h => by
    simp only [allocateBooks] at h
    cases h
    exact hsel
  | t :: rest, selected, hsel, picks, h => by
    simp only [allocateBooks] at h
    split at h
    · cases h
    · rename_i book hfind
      split at h
      · cases h
      · have hp := List.find?_some hfind
        simp only [Bool.and_eq_true, Bool.not_eq_true'] at hp
        have hnotmem : ¬ book.book_id ∈ selected := by simpa using hp.2
        have hsel' : (selected ++ [book.book_id]).Nodup := by
          simp [List.nodup_append, hsel, hnotmem]
        exact allocateBooks_nodup s card rest (selected ++ [book.book_id]) hsel' picks h

/-- If some line of the batch refers to a copy that is flagged on loan, the
approval loop aborts (the flag is only ever raised, never cleared, inside the
loop, so the offending line still sees it when reached). -/
theorem approveLoop_none_of_borrowed :
    ∀ (ds : List BorrowSlipDetail) (books : List Book),
      (∃ d ∈ ds, ∃ b, books.find? (fun bb => bb.book_id == d.book_id) = some b ∧
        b.being_borrowed = true) →
      approveLoop ds books = none
  | [], books, h => by
    rcases h with ⟨d, hd, _⟩
    cases hd
  | d0 :: rest, books, h => by
    rcases h with ⟨d, hd, b, hb, hbor⟩
    simp only [approveLoop]
    split
    · rename_i hfind
      rcases List.mem_cons.mp hd with rfl | hdrest
      · rw [hfind] at hb; cases hb
      · exact approveLoop_none_of_borrowed rest books ⟨d, hdrest, b, hb, hbor⟩
    · rename_i b0 hfind
      split
      · rfl
      · rename_i hbb
        rcases List.mem_cons.mp hd with rfl | hdrest
        · rw [hfind] at hb
          cases hb
          exact absurd hbor hbb
        · have hpres : ∀ bb : Book,
              ((fun bb => bb.book_id == d.book_id)
                ((fun bb => if bb.book_id == d0.book_id then
                    { bb with being_borrowed := true } else bb) bb)) =
              (fun bb => bb.book_id == d.book_id) bb := by
            intro bb
            by_cases hid : (bb.book_id == d0.book_id) = true <;> simp [hid]
          have hfind' :
              (books.map (fun bb => if bb.book_id == d0.book_id then
                  { bb with being_borrowed := true } else bb)).find?
                (fun bb => bb.book_id == d.book_id) =
              some (if b.book_id == d0.book_id then
                  { b with being_borrowed := true } else b) := by
            rw [find?_map_pres _ _ hpres, hb]
            rfl
          have hbor' : (if b.book_id == d0.book_id then
              { b with being_borrowed := true } else b).being_borrowed = true := by
            by_cases hid : (b.book_id == d0.book_id) = true <;> simp [hid, hbor]
          have hih := approveLoop_none_of_borrowed rest
            (books.map (fun bb => if bb.book_id == d0.book_id then
              { bb with being_borrowed := true } else bb))
            ⟨d, hdrest, _, hfind', hbor'⟩
          rw [hih]

/-- C1 (amended): within one multi-title submission no physical copy is ever
assigned to two lines, and approving a slip one of whose copies is already on
loan fails with 409 Conflict and commits nothing; the original blanket
invariant fails, however, because two separate pending submissions may hold
the same copy (see the counterexample). -/
theorem C1_amended_theorem :
    (∀ titleIds rid s s', create_borrow_request titleIds rid s = .ok s' →
      ((s'.details.drop s.details.length).map (fun d => d.book_id)).Nodup) ∧
    (∀ bsId libId s slip card d b,
      findSlip s bsId = some slip → slip.status = BorrowStatus.pending →
      findCard s slip.reader_id = some card →
      card.status ≠ CardStatus.blocked → card.status ≠ CardStatus.suspended →
      d ∈ slipDetails s bsId → findBook s d.book_id = some b →
      b.being_borrowed = true →
      approve_borrow_request bsId libId s = .err 409 s) := by
  constructor
  · intro titleIds rid s s' h
    simp only [create_borrow_request] at h
    split at h
    · cases h
    · rename_i card hc
      split at h
      · cases h
      · split at h
        · cases h
        · split at h
          · cases h
          · split at h
            · cases h
            · split at h
              · cases h
              · split at h
                · cases h
                · rename_i picks halloc
                  cases h
                  simp only [List.drop_left]
                  rw [List.map_map]
                  have hcomp : ((fun d : BorrowSlipDetail => d.book_id) ∘ (fun p : Nat × Nat =>
                      ({ id := s.next_id + 1 + p.1, borrow_slip_id := s.next_id,
                         book_id := p.2, status := BorrowStatus.pending,
                         return_date := none,
                         real_return_date := none } : BorrowSlipDetail))) =
                      Prod.snd := by
                    funext p; rfl
                  rw [hcomp, List.enum_map_snd]
                  exact allocateBooks_nodup s card titleIds [] List.nodup_nil picks halloc
  · intro bsId libId s slip card d b hslip hpend hcard hbl hsu hd hbook hbor
    have h1 : (slip.status != BorrowStatus.pending) = false := by
      simp [hpend]
    have h2 : (card.status == CardStatus.blocked) = false := by
      simp [hbl]
    have h3 : (card.status == CardStatus.suspended) = false := by
      simp [hsu]
    have hnone : approveLoop (slipDetails s bsId) s.books = none :=
      approveLoop_none_of_borrowed _ _ ⟨d, hd, b, hbook, hbor⟩
    simp only [approve_borrow_request, hslip, h1, Bool.false_eq_true, if_false, hcard,
      h2, h3, hnone]

/-- C1 witness: the amended theorem applied to the concrete fixtures — the
single-title submission assigns a duplicate-free copy list, and approving the
pending slip whose copy is already on loan yields 409 with the state
untouched. -/
theorem C1_amended_witness :
    (((create_borrow_request [1] 1 twoReaderState).state.details.drop
        twoReaderState.details.length).map (fun d => d.book_id)).Nodup ∧
    approve_borrow_request 5 9 takenCopyState = .err 409 takenCopyState :=
  ⟨C1_amended_theorem.1 [1] 1 twoReaderState
      ((create_borrow_request [1] 1 twoReaderState).state) (by decide),
   C1_amended_theorem.2 5 9 takenCopyState
     { bs_id := 5, reader_id := 1, librarian_id := none,
       borrow_date := { day := 99, minute := 0 }, status := .pending }
     { reader_id := 1, card_type := .standard, status := .active, infraction_count := 0 }
     { id := 6, borrow_slip_id := 5, book_id := 1, status := .pending,
       return_date := none, real_return_date := none }
     { book_id := 1, book_title_id := 1, condition := "good", being_borrowed := true }
     (by decide) rfl (by decide) (by decide) (by decide) (by decide) (by decide) rfl⟩

/-- C5: a reader whose counter is already 3 but who triggers no fresh
Active-to-Overdue increment is merely Suspended by the recomputation, not
Blocked — the accumulated-infractions rule is only evaluated after a new
increment. -/
theorem C5_counterexample :
    cardInfractions accumulatedState 1 = some 3 ∧
    cardStatus accumulatedState 1 = some CardStatus.active ∧
    cardStatus (process_reader_infractions 1 accumulatedState) 1 =
      some CardStatus.suspended := by
  decide

/-- C6: the history query flips an Active item 35 days past due to Overdue
while the owner's infraction counter stays 0, so not every Active-to-Overdue
transition increments the counter by one. -/
theorem C6_counterexample :
    (findDetail thirtyFiveDayState 6).map (fun d => d.status) =
      some BorrowStatus.active ∧
    (findDetail (history_auto_update 1 thirtyFiveDayState) 6).map (fun d => d.status) =
      some BorrowStatus.overdue ∧
    cardInfractions thirtyFiveDayState 1 = some 0 ∧
    cardInfractions (history_auto_update 1 thirtyFiveDayState) 1 = some 0 := by
  decide

/-- C7: a submission by a reader with an overdue loan fails with 403 but
leaves the persisted state changed — the auto-suspend path commits the card
mutation before raising, refuting the claimed no-change-on-failure
property. -/
theorem C7_counterexample :
    isOk (create_borrow_request [2] 1 oneOverdueState) = false ∧
    cardStatus oneOverdueState 1 = some CardStatus.active ∧
    cardStatus (create_borrow_request [2] 1 oneOverdueState).state 1 =
      some CardStatus.suspended ∧
    (create_borrow_request [2] 1 oneOverdueState).state ≠ oneOverdueState := by
  decide

/-- C8: evaluating the code at the failing input: the owner cancels a slip
whose status is Active (not Pending); the call nevertheless succeeds, removes
the slip and its LoanItem, and releases the copy — the source performs no
status check before deleting. -/
theorem C8_code_bug_eval :
    (findSlip activeSlipState 5).map (fun sl => sl.status) = some BorrowStatus.active ∧
    isOk (cancel_borrow_request 5 1 activeSlipState) = true ∧
    (cancel_borrow_request 5 1 activeSlipState).state.slips = [] ∧
    (cancel_borrow_request 5 1 activeSlipState).state.details = [] ∧
    (findBook (cancel_borrow_request 5 1 activeSlipState).state 1).map
      (fun b => b.being_borrowed) = some false := by
  decide

/-- C9: evaluating the code at the failing input: processing a PendingReturn
item as lost with title price 200000 VND records a Lost penalty of 150000 VND
(1.5 times the `getattr(book, "price", 100000)` default, since `Book` has no
price column), not 1.5 times the item's price (300000); the terminal status
and the released copy flag are as claimed. -/
theorem C9_code_bug_eval :
    (findTitle lostReturnState 1).map (fun t => t.price) = some 200000 ∧
    isOk (process_return 6 "lost" false none lostReturnState) = true ∧
    ((process_return 6 "lost" false none lostReturnState).state.penalties.map
      (fun p => (p.penalty_type, p.desc_amount))) = [(PenaltyType.lost, 150000)] ∧
    (findDetail (process_return 6 "lost" false none lostReturnState).state 6).map
      (fun d => d.status) = some BorrowStatus.lost ∧
    (findBook (process_return 6 "lost" false none lostReturnState).state 1).map
      (fun b => b.being_borrowed) = some false ∧
    (200000 * 3 / 2 : Nat) = 300000 ∧ (150000 : Nat) ≠ 300000 := by
  decide

/-- Looking a reader up after rewriting one reader's card row is the original
lookup with the rewrite applied to the found row. -/
theorem findCard_updateCard (cards : List ReadingCard) (rid r : Nat)
    (f : ReadingCard → ReadingCard) (hf : ∀ c, (f c).reader_id = c.reader_id) :
    (updateCard rid f cards).find? (fun c => c.reader_id == r) =
      ((cards.find? (fun c => c.reader_id == r)).map
        (fun c => if c.reader_id == rid then f c else c)) := by
  unfold updateCard
  apply find?_map_pres
  intro c
  by_cases h : (c.reader_id == rid) = true <;> simp [h, hf]

/-- Rewriting the looked-up reader's own card row rewrites the lookup
result. -/
theorem find_updateCard_self {cards : List ReadingCard} {rid : Nat} {card : ReadingCard}
    (hc : cards.find? (fun c => c.reader_id == rid) = some card)
    (f : ReadingCard → ReadingCard) (hf : ∀ c, (f c).reader_id = c.reader_id) :
    (updateCard rid f cards).find? (fun c => c.reader_id == rid) = some (f card) := by
  rw [findCard_updateCard cards rid rid f hf, hc]
  have hcr := List.find?_some hc
  simp only at hcr
  simp only [Option.map_some']
  rw [if_pos hcr]

/-- Rewriting a different reader's card rows leaves the lookup unchanged. -/
theorem find_updateCard_other {cards : List ReadingCard} {rid r : Nat}
    (hne : rid ≠ r) (f : ReadingCard → ReadingCard)
    (hf : ∀ c, (f c).reader_id = c.reader_id) :
    (updateCard rid f cards).find? (fun c => c.reader_id == r) =
      cards.find? (fun c => c.reader_id == r) := by
  rw [findCard_updateCard cards rid r f hf]
  cases hfind : cards.find? (fun c => c.reader_id == r) with
  | none => rfl
  | some c =>
    have hcr := List.find?_some hfind
    simp only [beq_iff_eq] at hcr
    have hnot : (c.reader_id == rid) = false := by
      simp only [beq_eq_false_iff_ne, ne_eq]
      omega
    simp only [Option.map_some']
    rw [if_neg (by simp [hnot])]

/-- C7 (amended): every failing submission leaves the slips, items, copies,
penalties, readers, titles, clock and id counter exactly as before; the card
table is either unchanged or — on the auto-suspend path only — rewritten with
the submitting reader's card set to Suspended before the 403 is raised. -/
theorem C7_amended_theorem (titleIds : List Nat) (rid : Nat) (s : LibState)
    (code : Nat) (s' : LibState)
    (h : create_borrow_request titleIds rid s = .err code s') :
    s'.slips = s.slips ∧ s'.details = s.details ∧ s'.books = s.books ∧
    s'.penalties = s.penalties ∧ s'.readers = s.readers ∧ s'.titles = s.titles ∧
    s'.now = s.now ∧ s'.next_id = s.next_id ∧
    (s'.cards = s.cards ∨
      s'.cards = updateCard rid (fun c => { c with status := .suspended }) s.cards) := by
  simp only [create_borrow_request] at h
  split at h
  · cases h
    exact ⟨rfl, rfl, rfl, rfl, rfl, rfl, rfl, rfl, Or.inl rfl⟩
  · split at h
    · cases h
      exact ⟨rfl, rfl, rfl, rfl, rfl, rfl, rfl, rfl, Or.inl rfl⟩
    · split at h
      · cases h
        exact ⟨rfl, rfl, rfl, rfl, rfl, rfl, rfl, rfl, Or.inr rfl⟩
      · split at h
        · cases h
          exact ⟨rfl, rfl, rfl, rfl, rfl, rfl, rfl, rfl, Or.inl rfl⟩
        · split at h
          · cases h
            exact ⟨rfl, rfl, rfl, rfl, rfl, rfl, rfl, rfl, Or.inl rfl⟩
          · split at h
            · cases h
              exact ⟨rfl, rfl, rfl, rfl, rfl, rfl, rfl, rfl, Or.inl rfl⟩
            · split at h
              · cases h
                exact ⟨rfl, rfl, rfl, rfl, rfl, rfl, rfl, rfl, Or.inl rfl⟩
              · cases h

/-- C7 witness: the amended theorem at a concrete failing submission (a title
with no copies), whose committed state is the input state. -/
theorem C7_amended_witness :
    twoReaderState.slips = twoReaderState.slips ∧
    twoReaderState.details = twoReaderState.details ∧
    twoReaderState.books = twoReaderState.books ∧
    twoReaderState.penalties = twoReaderState.penalties ∧
    twoReaderState.readers = twoReaderState.readers ∧
    twoReaderState.titles = twoReaderState.titles ∧
    twoReaderState.now = twoReaderState.now ∧
    twoReaderState.next_id = twoReaderState.next_id ∧
    (twoReaderState.cards = twoReaderState.cards ∨
      twoReaderState.cards = updateCard 2 (fun c => { c with status := .suspended })
        twoReaderState.cards) :=
  C7_amended_theorem [3] 2 twoReaderState 404 twoReaderState (by decide)

/-- A batch with no increment-eligible line produces no flips, no count
change and no break in the sweep's second pass. -/
theorem sweepPass2_no_eligible (now : DT) :
    ∀ (l : List BorrowSlipDetail) (cnt : Nat),
      (∀ d ∈ l, sweepIncrementEligible now d = false) →
      (sweepPass2 now cnt l).1 = [] ∧ (sweepPass2 now cnt l).2.1 = cnt ∧
        (sweepPass2 now cnt l).2.2.2 = false := by
  intro l
  induction l with
  | nil => intro cnt _; exact ⟨rfl, rfl, rfl⟩
  | cons d rest ih =>
    intro cnt hall
    have hrest : ∀ d' ∈ rest, sweepIncrementEligible now d' = false :=
      fun d' hd' => hall d' (List.mem_cons_of_mem d hd')
    have hd := hall d (List.mem_cons_self d rest)
    simp only [sweepPass2, hd, Bool.false_eq_true, if_false]
    by_cases hov : detailIsOverdue now d = true
    · simp only [hov, eq_self_iff_true, if_true]
      exact ⟨(ih cnt hrest).1, (ih cnt hrest).2.1, (ih cnt hrest).2.2⟩
    · have hov' : detailIsOverdue now d = false := by simpa using hov
      simp only [hov', Bool.false_eq_true, if_false]
      exact ih cnt hrest

/-- Two successive rewrites of the same reader's card rows compose. -/
theorem updateCard_comp (rid : Nat) (f g : ReadingCard → ReadingCard)
    (hg : ∀ c, (g c).reader_id = c.reader_id) (cards : List ReadingCard) :
    updateCard rid f (updateCard rid g cards) =
      updateCard rid (fun c => f (g c)) cards := by
  unfold updateCard
  rw [List.map_map]
  apply List.map_congr_left
  intro c _
  by_cases h : (c.reader_id == rid) = true
  · have hgr : ((g c).reader_id == rid) = true := by
      rw [hg c]; exact h
    simp [Function.comp, h, hgr]
  · have h' : (c.reader_id == rid) = false := by simpa using h
    simp [Function.comp, h']

/-- The sweep does nothing at all for a reader whose card is already
Blocked. -/
theorem sweep_blocked {s : LibState} {rid : Nat}
    (h : cardStatus s rid = some CardStatus.blocked) :
    process_reader_infractions rid s = s := by
  unfold cardStatus at h
  cases hc : findCard s rid with
  | none => rw [hc] at h; cases h
  | some c =>
    rw [hc] at h
    have hcs : c.status = CardStatus.blocked := by
      simpa using h
    simp [process_reader_infractions, hc, hcs]

/-- An increment-eligible line is in particular past due. -/
theorem overdue_of_eligible {now : DT} {d : BorrowSlipDetail}
    (h : sweepIncrementEligible now d = true) : detailIsOverdue now d = true := by
  unfold sweepIncrementEligible at h
  unfold detailIsOverdue
  cases hret : d.return_date with
  | none => rw [hret] at h; cases h
  | some due =>
    rw [hret] at h
    simp only [Bool.and_eq_true] at h
    exact h.1.1

/-- Every id the second pass flips belongs to an increment-eligible line of
the batch. -/
theorem sweepPass2_flips_sub (now : DT) :
    ∀ (l : List BorrowSlipDetail) (cnt : Nat),
      ∀ i ∈ (sweepPass2 now cnt l).1,
        ∃ d ∈ l, d.id = i ∧ sweepIncrementEligible now d = true := by
  intro l
  induction l with
  | nil => intro cnt i hi; cases hi
  | cons d rest ih =>
    intro cnt i hi
    simp only [sweepPass2] at hi
    by_cases hov : detailIsOverdue now d = true
    · simp only [hov, eq_self_iff_true, if_true] at hi
      by_cases hel : sweepIncrementEligible now d = true
      · simp only [hel, eq_self_iff_true, if_true] at hi
        by_cases hbrk : 3 ≤ cnt + 1
        · rw [if_pos hbrk] at hi
          simp only [List.mem_singleton] at hi
          exact ⟨d, List.mem_cons_self d rest, hi.symm, hel⟩
        · rw [if_neg hbrk] at hi
          rcases List.mem_cons.mp hi with rfl | hirest
          · exact ⟨d, List.mem_cons_self d rest, rfl, hel⟩
          · obtain ⟨d', hd', he, h2⟩ := ih (cnt + 1) i hirest
            exact ⟨d', List.mem_cons_of_mem d hd', he, h2⟩
      · have hel' : sweepIncrementEligible now d = false := by simpa using hel
        simp only [hel', Bool.false_eq_true, if_false] at hi
        obtain ⟨d', hd', he, h2⟩ := ih cnt i hi
        exact ⟨d', List.mem_cons_of_mem d hd', he, h2⟩
    · have hov' : detailIsOverdue now d = false := by simpa using hov
      simp only [hov', Bool.false_eq_true, if_false] at hi
      obtain ⟨d', hd', he, h2⟩ := ih cnt i hi
      exact ⟨d', List.mem_cons_of_mem d hd', he, h2⟩

/-- If the second pass completed without the 3-infraction break, every
increment-eligible line of the batch was flipped. -/
theorem sweepPass2_flips_complete (now : DT) :
    ∀ (l : List BorrowSlipDetail) (cnt : Nat),
      (sweepPass2 now cnt l).2.2.2 = false →
      ∀ d ∈ l, sweepIncrementEligible now d = true →
        d.id ∈ (sweepPass2 now cnt l).1 := by
  intro l
  induction l with
  | nil => intro cnt _ d hd; cases hd
  | cons d0 rest ih =>
    intro cnt hnb d hd helig
    simp only [sweepPass2] at hnb ⊢
    by_cases hov : detailIsOverdue now d0 = true
    · simp only [hov, eq_self_iff_true, if_true] at hnb ⊢
      by_cases hel : sweepIncrementEligible now d0 = true
      · simp only [hel, eq_self_iff_true, if_true] at hnb ⊢
        by_cases hbrk : 3 ≤ cnt + 1
        · rw [if_pos hbrk] at hnb
          simp at hnb
        · rw [if_neg hbrk] at hnb ⊢
          rcases List.mem_cons.mp hd with rfl | hdrest
          · exact List.mem_cons_self _ _
          · exact List.mem_cons_of_mem _ (ih (cnt + 1) hnb d hdrest helig)
      · have hel' : sweepIncrementEligible now d0 = false := by simpa using hel
        simp only [hel', Bool.false_eq_true, if_false] at hnb ⊢
        rcases List.mem_cons.mp hd with rfl | hdrest
        · rw [helig] at hel'; cases hel'
        · exact ih cnt hnb d hdrest helig
    · have hov' : detailIsOverdue now d0 = false := by simpa using hov
      simp only [hov', Bool.false_eq_true, if_false] at hnb ⊢
      rcases List.mem_cons.mp hd with rfl | hdrest
      · rw [overdue_of_eligible helig] at hov'; cases hov'
      · exact ih cnt hnb d hdrest helig

/-- When the second pass completes without break, its overdue flag is exactly
whether some line of the batch is past due. -/
theorem sweepPass2_ho (now : DT) :
    ∀ (l : List BorrowSlipDetail) (cnt : Nat),
      (sweepPass2 now cnt l).2.2.2 = false →
      (sweepPass2 now cnt l).2.2.1 = l.any (detailIsOverdue now) := by
  intro l
  induction l with
  | nil => intro cnt _; rfl
  | cons d rest ih =>
    intro cnt hnb
    simp only [sweepPass2] at hnb ⊢
    by_cases hov : detailIsOverdue now d = true
    · simp only [hov, eq_self_iff_true, if_true] at hnb ⊢
      by_cases hel : sweepIncrementEligible now d = true
      · simp only [hel, eq_self_iff_true, if_true] at hnb ⊢
        by_cases hbrk : 3 ≤ cnt + 1
        · rw [if_pos hbrk] at hnb
          simp at hnb
        · rw [if_neg hbrk] at hnb ⊢
          simp [List.any_cons, hov]
      · have hel' : sweepIncrementEligible now d = false := by simpa using hel
        simp only [hel', Bool.false_eq_true, if_false] at hnb ⊢
        simp [List.any_cons, hov]
    · have hov' : detailIsOverdue now d = false := by simpa using hov
      simp only [hov', Bool.false_eq_true, if_false] at hnb ⊢
      rw [ih cnt hnb]
      simp [List.any_cons, hov']

/-- Membership characterization of a card-table rewrite. -/
theorem mem_updateCard {cards : List ReadingCard} {rid : Nat}
    {f : ReadingCard → ReadingCard} {c' : ReadingCard}
    (h : c' ∈ updateCard rid f cards) :
    ∃ c ∈ cards, c' = if (c.reader_id == rid) = true then f c else c := by
  unfold updateCard at h
  obtain ⟨c, hc, he⟩ := List.mem_map.mp h
  exact ⟨c, hc, he.symm⟩

/-- A rewrite that fixes every matching row is the identity. -/
theorem updateCard_id {cards : List ReadingCard} {rid : Nat}
    {f : ReadingCard → ReadingCard}
    (h : ∀ c ∈ cards, (c.reader_id == rid) = true → f c = c) :
    updateCard rid f cards = cards := by
  unfold updateCard
  have : ∀ c ∈ cards, (if (c.reader_id == rid) = true then f c else c) = c := by
    intro c hc
    by_cases hr : (c.reader_id == rid) = true
    · rw [if_pos hr]; exact h c hc hr
    · rw [if_neg hr]
  rw [List.map_congr_left this, List.map_id']

/-- Mapping an empty flip set over the detail table changes nothing. -/
theorem map_flip_nil (l : List BorrowSlipDetail) :
    l.map (fun d => if ([] : List Nat).contains d.id then
      { d with status := BorrowStatus.overdue } else d) = l := by
  induction l with
  | nil => rfl
  | cons d rest ih =>
    simp only [List.map_cons, ih]
    rfl

/-- A line flipped to Overdue is no longer increment-eligible. -/
theorem eligible_overdue_status (now : DT) (d : BorrowSlipDetail) :
    sweepIncrementEligible now { d with status := BorrowStatus.overdue } = false := by
  obtain ⟨i, bs, bk, st, ret, rr⟩ := d
  cases ret with
  | none => rfl
  | some due => simp [sweepIncrementEligible]

/-- Flipping a line's status leaves `detailIsOverdue` unchanged. -/
theorem detailIsOverdue_flip (now : DT) (flips : List Nat) (d : BorrowSlipDetail) :
    detailIsOverdue now (if flips.contains d.id then
      { d with status := BorrowStatus.overdue } else d) = detailIsOverdue now d := by
  obtain ⟨i, bs, bk, st, ret, rr⟩ := d
  by_cases h : (flips.contains i) = true
  · rw [if_pos h]
    cases ret <;> rfl
  · rw [if_neg h]

/-- Flipping a line's status leaves `over30` unchanged. -/
theorem over30_flip (now : DT) (flips : List Nat) (d : BorrowSlipDetail) :
    over30 now (if flips.contains d.id then
      { d with status := BorrowStatus.overdue } else d) = over30 now d := by
  obtain ⟨i, bs, bk, st, ret, rr⟩ := d
  by_cases h : (flips.contains i) = true
  · rw [if_pos h]
    cases ret <;> rfl
  · rw [if_neg h]

/-- The sweep is the identity on a stable state: no card found is already
Blocked -- here, a found card that is not Blocked, no 30-day line, no
increment-eligible line, every matching card row already carrying the final
counter, and a card status that is Suspended exactly when an overdue line
exists. -/
theorem sweep_fixed_point (s : LibState) (rid : Nat) (card : ReadingCard)
    (hcf : findCard s rid = some card)
    (hblk : (card.status == CardStatus.blocked) = false)
    (hany : (unreturnedOf s rid).any (over30 s.now) = false)
    (helig : ∀ d ∈ unreturnedOf s rid, sweepIncrementEligible s.now d = false)
    (hcnt : ∀ c ∈ s.cards, (c.reader_id == rid) = true →
      c.infraction_count = card.infraction_count)
    (hsusp : card.status = CardStatus.suspended ↔
      (unreturnedOf s rid).any (detailIsOverdue s.now) = true) :
    process_reader_infractions rid s = s := by
  obtain ⟨h1, h2, h4⟩ := sweepPass2_no_eligible s.now (unreturnedOf s rid)
    card.infraction_count helig
  have hho := sweepPass2_ho s.now (unreturnedOf s rid) card.infraction_count h4
  simp only [process_reader_infractions, hcf, hblk, Bool.false_eq_true, if_false, hany,
    h1, h2, h4, hho]
  have hdet : s.details.map (fun d => if ([] : List Nat).contains d.id then
      { d with status := BorrowStatus.overdue } else d) = s.details := map_flip_nil s.details
  have hcards1 : updateCard rid
      (fun c => { c with infraction_count := card.infraction_count }) s.cards = s.cards := by
    apply updateCard_id
    intro c hc hr
    have := hcnt c hc hr
    rw [← this]
  by_cases hov : (unreturnedOf s rid).any (detailIsOverdue s.now) = true
  · have hss : card.status = CardStatus.suspended := hsusp.mpr hov
    have hc1 : (card.status != CardStatus.suspended) = false := by simp [hss]
    simp only [hov, hc1, Bool.and_false, Bool.false_eq_true, if_false, Bool.not_true,
      Bool.false_and, hdet, hcards1]
  · have hov' : (unreturnedOf s rid).any (detailIsOverdue s.now) = false := by
      simpa using hov
    have hns : card.status ≠ CardStatus.suspended := fun he => by
      rw [hsusp.mp he] at hov'; cases hov'
    have hc2 : (card.status == CardStatus.suspended) = false := by simp [hns]
    simp only [hov', hc2, Bool.false_and, Bool.false_eq_true, if_false, Bool.not_false,
      Bool.true_and, Bool.and_false, hdet, hcards1]

/-- The sweep never touches the penalty table. -/
theorem sweep_penalties (rid : Nat) (s : LibState) :
    (process_reader_infractions rid s).penalties = s.penalties := by
  unfold process_reader_infractions
  split
  · rfl
  · split
    · rfl
    · dsimp only
      split
      · rfl
      · rfl

/-- After the sweep flips a set of ids (all of them ids of increment-eligible
lines of the batch), the reader's unreturned batch is the flipped original
batch — flipping preserves both the reader join and non-terminality. -/
theorem unret_after_flip (s : LibState) (rid : Nat) (flips : List Nat)
    (cards' : List ReadingCard)
    (hnodup : (s.details.map (fun d => d.id)).Nodup)
    (hsub : ∀ i ∈ flips, ∃ d ∈ unreturnedOf s rid, d.id = i ∧
      sweepIncrementEligible s.now d = true) :
    unreturnedOf { s with
        details := s.details.map (fun d => if flips.contains d.id then
          { d with status := BorrowStatus.overdue } else d),
        cards := cards' } rid =
      (unreturnedOf s rid).map (fun d => if flips.contains d.id then
        { d with status := BorrowStatus.overdue } else d) := by
  show (s.details.map (fun d => if flips.contains d.id then
      { d with status := BorrowStatus.overdue } else d)).filter
    (fun d => detailOfReader s rid d &&
      !(d.status == BorrowStatus.returned || d.status == BorrowStatus.lost ||
        d.status == BorrowStatus.rejected)) =
    ((s.details.filter (fun d => detailOfReader s rid d &&
      !(d.status == BorrowStatus.returned || d.status == BorrowStatus.lost ||
        d.status == BorrowStatus.rejected))).map (fun d => if flips.contains d.id then
      { d with status := BorrowStatus.overdue } else d))
  rw [List.filter_map]
  congr 1
  apply List.filter_congr
  intro d hd
  simp only [Function.comp]
  by_cases hc : (flips.contains d.id) = true
  · rw [if_pos hc]
    have hmem : d.id ∈ flips := by simpa using hc
    obtain ⟨d', hd', hid, _⟩ := hsub d.id hmem
    have hd'mem : d' ∈ s.details := (List.mem_filter.mp hd').1
    have hq : (detailOfReader s rid d' &&
        !(d'.status == BorrowStatus.returned || d'.status == BorrowStatus.lost ||
          d'.status == BorrowStatus.rejected)) = true := (List.mem_filter.mp hd').2
    have hde : d' = d :=
      List.inj_on_of_nodup_map hnodup hd'mem hd hid
    rw [hde] at hq
    rw [hq]
    simp only [Bool.and_eq_true] at hq
    have h1 : detailOfReader s rid { d with status := BorrowStatus.overdue } = true := hq.1
    rw [show detailOfReader s rid { d with status := BorrowStatus.overdue } =
        detailOfReader s rid d from rfl, hq.1]
    rfl
  · rw [if_neg hc]

/-- After a first sweep run that completed its second pass without the
3-infraction break, the resulting state is a fixed point of the sweep: this
lemma packages the second run, given the rewritten card table in the form
`updateCard rid G` with the facts the fixed-point lemma needs about `G`. -/
theorem sweep_snd_run (s : LibState) (rid : Nat) (card : ReadingCard)
    (hcf : findCard s rid = some card)
    (hnodup : (s.details.map (fun d => d.id)).Nodup)
    (hany : (unreturnedOf s rid).any (over30 s.now) = false)
    (hbrk : (sweepPass2 s.now card.infraction_count (unreturnedOf s rid)).2.2.2 = false)
    (G : ReadingCard → ReadingCard)
    (hGr : ∀ c, (G c).reader_id = c.reader_id)
    (hGc : ∀ c, (G c).infraction_count =
      (sweepPass2 s.now card.infraction_count (unreturnedOf s rid)).2.1)
    (hGs : ((G card).status == CardStatus.blocked) = false)
    (hsusp : ((G card).status = CardStatus.suspended) ↔
      ((unreturnedOf s rid).any (detailIsOverdue s.now) = true))
    (hst : process_reader_infractions rid s = { s with
        details := s.details.map (fun d =>
          if (sweepPass2 s.now card.infraction_count (unreturnedOf s rid)).1.contains d.id
          then { d with status := BorrowStatus.overdue } else d),
        cards := updateCard rid G s.cards }) :
    process_reader_infractions rid (process_reader_infractions rid s) =
      process_reader_infractions rid s := by
  have hsub := sweepPass2_flips_sub s.now (unreturnedOf s rid) card.infraction_count
  have hflip := unret_after_flip s rid
    (sweepPass2 s.now card.infraction_count (unreturnedOf s rid)).1
    (updateCard rid G s.cards) hnodup hsub
  rw [hst]
  refine sweep_fixed_point _ rid (G card) ?_ ?_ ?_ ?_ ?_ ?_
  · exact find_updateCard_self hcf G hGr
  · exact hGs
  · rw [hflip, List.any_map]
    have he : (over30 s.now ∘ fun d =>
        if (sweepPass2 s.now card.infraction_count (unreturnedOf s rid)).1.contains d.id
        then { d with status := BorrowStatus.overdue } else d) = over30 s.now := by
      funext d
      exact over30_flip s.now _ d
    rw [he]
    exact hany
  · intro e he
    rw [hflip] at he
    obtain ⟨d, hd, rfl⟩ := List.mem_map.mp he
    by_cases hcont : ((sweepPass2 s.now card.infraction_count
        (unreturnedOf s rid)).1.contains d.id) = true
    · rw [if_pos hcont]
      exact eligible_overdue_status s.now d
    · rw [if_neg hcont]
      cases hel : sweepIncrementEligible s.now d with
      | false => rfl
      | true =>
        exfalso
        have hin := sweepPass2_flips_complete s.now (unreturnedOf s rid)
          card.infraction_count hbrk d hd hel
        exact hcont (by simpa using hin)
  · intro c hc hr
    obtain ⟨c₀, hc₀, he⟩ := mem_updateCard hc
    by_cases h₀ : (c₀.reader_id == rid) = true
    · rw [if_pos h₀] at he
      rw [he, hGc c₀, ← hGc card]
    · rw [if_neg h₀] at he
      rw [he] at hr
      exact absurd hr (by simp [h₀])
  · rw [hflip, List.any_map]
    have he : (detailIsOverdue s.now ∘ fun d =>
        if (sweepPass2 s.now card.infraction_count (unreturnedOf s rid)).1.contains d.id
        then { d with status := BorrowStatus.overdue } else d) = detailIsOverdue s.now := by
      funext d
      exact detailIsOverdue_flip s.now _ d
    rw [he]
    exact hsusp

/-- Unfolding of the sweep in the proceed-to-second-pass case. -/
theorem sweep_reduce (rid : Nat) (s : LibState) (card : ReadingCard)
    (hcf : findCard s rid = some card)
    (hblb : (card.status == CardStatus.blocked) = false)
    (hany : (unreturnedOf s rid).any (over30 s.now) = false) :
    process_reader_infractions rid s = { s with
      details := s.details.map (fun d =>
        if (sweepPass2 s.now card.infraction_count (unreturnedOf s rid)).1.contains d.id
        then { d with status := BorrowStatus.overdue } else d),
      cards :=
        if (sweepPass2 s.now card.infraction_count (unreturnedOf s rid)).2.2.2 then
          updateCard rid (fun c => { c with status := .blocked })
            (updateCard rid (fun c => { c with infraction_count :=
              (sweepPass2 s.now card.infraction_count (unreturnedOf s rid)).2.1 }) s.cards)
        else if (sweepPass2 s.now card.infraction_count (unreturnedOf s rid)).2.2.1 &&
            card.status != CardStatus.suspended then
          updateCard rid (fun c => { c with status := .suspended })
            (updateCard rid (fun c => { c with infraction_count :=
              (sweepPass2 s.now card.infraction_count (unreturnedOf s rid)).2.1 }) s.cards)
        else if !(sweepPass2 s.now card.infraction_count (unreturnedOf s rid)).2.2.1 &&
            card.status == CardStatus.suspended then
          updateCard rid (fun c => { c with status := .active })
            (updateCard rid (fun c => { c with infraction_count :=
              (sweepPass2 s.now card.infraction_count (unreturnedOf s rid)).2.1 }) s.cards)
        else
          updateCard rid (fun c => { c with infraction_count :=
            (sweepPass2 s.now card.infraction_count (unreturnedOf s rid)).2.1 }) s.cards } := by
  simp only [process_reader_infractions, hcf, hblb, Bool.false_eq_true, if_false, hany]

/-- C6 (amended): the infraction sweep is idempotent — running it twice in
immediate succession (same clock) leaves exactly the state of the first run,
so the second run adds no infractions and changes no statuses; and the sweep
creates no penalty records at all, so in particular no duplicate Late records
(the `detail ids are duplicate-free` hypothesis is the primary-key
uniqueness of the detail table).  The increment itself is not tied to every
Active-to-Overdue transition, however: the history query performs the same
transition without incrementing (see the counterexample). -/
theorem C6_amended_theorem :
    ∀ rid s, (s.details.map (fun d => d.id)).Nodup →
      process_reader_infractions rid (process_reader_infractions rid s) =
        process_reader_infractions rid s ∧
      (process_reader_infractions rid s).penalties = s.penalties := by
  intro rid s hnodup
  refine ⟨?_, sweep_penalties rid s⟩
  cases hcf : findCard s rid with
  | none =>
    have h0 : process_reader_infractions rid s = s := by
      simp [process_reader_infractions, hcf]
    rw [h0]
    exact h0
  | some card =>
    by_cases hblk : card.status = CardStatus.blocked
    · have h0 : process_reader_infractions rid s = s := by
        simp [process_reader_infractions, hcf, hblk]
      rw [h0]
      exact h0
    · have hblb : (card.status == CardStatus.blocked) = false := by simp [hblk]
      by_cases hany : (unreturnedOf s rid).any (over30 s.now) = true
      · have hred : process_reader_infractions rid s = { s with
            cards := updateCard rid (fun c => { c with status := .blocked }) s.cards } := by
          simp only [process_reader_infractions, hcf, hblb, Bool.false_eq_true, if_false,
            hany, if_true]
        apply sweep_blocked
        rw [hred]
        unfold cardStatus findCard
        rw [find_updateCard_self hcf (fun c => { c with status := .blocked }) (fun c => rfl)]
        rfl
      · have hany' : (unreturnedOf s rid).any (over30 s.now) = false := by simpa using hany
        have hred := sweep_reduce rid s card hcf hblb hany'
        by_cases hbrk : (sweepPass2 s.now card.infraction_count
            (unreturnedOf s rid)).2.2.2 = true
        · simp only [hbrk, if_true] at hred
          apply sweep_blocked
          rw [hred]
          unfold cardStatus findCard
          rw [find_updateCard_self
            (find_updateCard_self hcf (fun c => { c with infraction_count :=
              (sweepPass2 s.now card.infraction_count (unreturnedOf s rid)).2.1 })
              (fun c => rfl))
            (fun c => { c with status := .blocked }) (fun c => rfl)]
          rfl
        · have hbrk' : (sweepPass2 s.now card.infraction_count
              (unreturnedOf s rid)).2.2.2 = false := by simpa using hbrk
          simp only [hbrk', Bool.false_eq_true, if_false] at hred
          have hhoeq := sweepPass2_ho s.now (unreturnedOf s rid) card.infraction_count hbrk'
          by_cases hho : (sweepPass2 s.now card.infraction_count
              (unreturnedOf s rid)).2.2.1 = true
          · by_cases hsusp : card.status = CardStatus.suspended
            · have hc1 : ((sweepPass2 s.now card.infraction_count
                  (unreturnedOf s rid)).2.2.1 &&
                  card.status != CardStatus.suspended) = false := by
                simp [hsusp]
              have hc2 : (!(sweepPass2 s.now card.infraction_count
                  (unreturnedOf s rid)).2.2.1 &&
                  card.status == CardStatus.suspended) = false := by
                simp [hho]
              simp only [hc1, hc2, Bool.false_eq_true, if_false] at hred
              exact sweep_snd_run s rid card hcf hnodup hany' hbrk'
                (fun c => { c with infraction_count := (sweepPass2 s.now
                  card.infraction_count (unreturnedOf s rid)).2.1 })
                (fun c => rfl) (fun c => rfl) hblb
                ⟨fun _ => hhoeq.symm.trans hho, fun _ => hsusp⟩ hred
            · have hc1 : ((sweepPass2 s.now card.infraction_count
                  (unreturnedOf s rid)).2.2.1 &&
                  card.status != CardStatus.suspended) = true := by
                simp [hho, hsusp]
              simp only [hc1, if_true] at hred
              rw [updateCard_comp rid (fun c => { c with status := .suspended })
                (fun c => { c with infraction_count := (sweepPass2 s.now
                  card.infraction_count (unreturnedOf s rid)).2.1 })
                (fun c => rfl) s.cards] at hred
              exact sweep_snd_run s rid card hcf hnodup hany' hbrk'
                (fun c =>
                  { c with
                    status := CardStatus.suspended
                    infraction_count := (sweepPass2 s.now card.infraction_count
                      (unreturnedOf s rid)).2.1 })
                (fun c => rfl) (fun c => rfl) rfl
                ⟨fun _ => hhoeq.symm.trans hho, fun _ => rfl⟩ hred
          · have hho' : (sweepPass2 s.now card.infraction_count
                (unreturnedOf s rid)).2.2.1 = false := by simpa using hho
            by_cases hsusp : card.status = CardStatus.suspended
            · have hc1 : ((sweepPass2 s.now card.infraction_count
                  (unreturnedOf s rid)).2.2.1 &&
                  card.status != CardStatus.suspended) = false := by
                simp [hho']
              have hc2 : (!(sweepPass2 s.now card.infraction_count
                  (unreturnedOf s rid)).2.2.1 &&
                  card.status == CardStatus.suspended) = true := by
                simp [hho', hsusp]
              simp only [hc1, Bool.false_eq_true, if_false, hc2, if_true] at hred
              rw [updateCard_comp rid (fun c => { c with status := .active })
                (fun c => { c with infraction_count := (sweepPass2 s.now
                  card.infraction_count (unreturnedOf s rid)).2.1 })
                (fun c => rfl) s.cards] at hred
              exact sweep_snd_run s rid card hcf hnodup hany' hbrk'
                (fun c =>
                  { c with
                    status := CardStatus.active
                    infraction_count := (sweepPass2 s.now card.infraction_count
                      (unreturnedOf s rid)).2.1 })
                (fun c => rfl) (fun c => rfl) rfl
                ⟨fun h => CardStatus.noConfusion h,
                 fun h => absurd (hhoeq.trans h) (by simp [hho'])⟩ hred
            · have hc1 : ((sweepPass2 s.now card.infraction_count
                  (unreturnedOf s rid)).2.2.1 &&
                  card.status != CardStatus.suspended) = false := by
                simp [hho']
              have hc2 : (!(sweepPass2 s.now card.infraction_count
                  (unreturnedOf s rid)).2.2.1 &&
                  card.status == CardStatus.suspended) = false := by
                simp [hho', hsusp]
              simp only [hc1, hc2, Bool.false_eq_true, if_false] at hred
              exact sweep_snd_run s rid card hcf hnodup hany' hbrk'
                (fun c => { c with infraction_count := (sweepPass2 s.now
                  card.infraction_count (unreturnedOf s rid)).2.1 })
                (fun c => rfl) (fun c => rfl) hblb
                ⟨fun h => absurd h hsusp,
                 fun h => absurd (hhoeq.trans h) (by simp [hho'])⟩ hred

/-- C6 witness: idempotence applied at the 35-days-overdue fixture (the first
run blocks the reader; the second changes nothing), with the duplicate-free
primary keys discharged by evaluation. -/
theorem C6_amended_witness :
    process_reader_infractions 1 (process_reader_infractions 1 thirtyFiveDayState) =
      process_reader_infractions 1 thirtyFiveDayState ∧
    (process_reader_infractions 1 thirtyFiveDayState).penalties =
      thirtyFiveDayState.penalties :=
  C6_amended_theorem 1 thirtyFiveDayState (by decide)

/-- Destructing a Blocked observation into the underlying card row. -/
theorem cardStatus_blocked_elim {s : LibState} {r : Nat}
    (h : cardStatus s r = some CardStatus.blocked) :
    ∃ c, s.cards.find? (fun x => x.reader_id == r) = some c ∧
      c.status = CardStatus.blocked := by
  unfold cardStatus findCard at h
  cases hf : s.cards.find? (fun x => x.reader_id == r) with
  | none => rw [hf] at h; cases h
  | some c => rw [hf] at h; exact ⟨c, rfl, by simpa using h⟩

/-- A Blocked observation survives a card-table rewrite whenever the rewrite,
if it hits the observed reader at all, preserves Blocked. -/
theorem blocked_after_update (cards : List ReadingCard) (r rid : Nat)
    (f : ReadingCard → ReadingCard) (hf : ∀ c, (f c).reader_id = c.reader_id)
    (hguard : rid = r → ∀ c, cards.find? (fun x => x.reader_id == r) = some c →
      c.status = CardStatus.blocked → (f c).status = CardStatus.blocked)
    (h : ((cards.find? (fun c => c.reader_id == r)).map (fun c => c.status)) =
      some CardStatus.blocked) :
    ((updateCard rid f cards).find? (fun c => c.reader_id == r)).map
      (fun c => c.status) = some CardStatus.blocked := by
  cases hfind : cards.find? (fun c => c.reader_id == r) with
  | none => rw [hfind] at h; cases h
  | some c =>
    rw [hfind] at h
    have hcs : c.status = CardStatus.blocked := by simpa using h
    rw [findCard_updateCard cards rid r f hf, hfind]
    simp only [Option.map_some']
    by_cases hcr : (c.reader_id == rid) = true
    · rw [if_pos hcr]
      have h1 : c.reader_id = rid := by simpa using hcr
      have h2 := List.find?_some hfind
      simp only [beq_iff_eq] at h2
      have hrr : rid = r := by omega
      rw [hguard hrr c hfind hcs]
    · rw [if_neg hcr]
      rw [hcs]

/-- A card observation only depends on the card table. -/
theorem cardStatus_congr {s₁ s₂ : LibState} (r : Nat) (h : s₁.cards = s₂.cards) :
    cardStatus s₁ r = cardStatus s₂ r := by
  unfold cardStatus findCard
  rw [h]

/-- Approval never writes the card table. -/
theorem approve_cards (b l : Nat) (s : LibState) :
    (approve_borrow_request b l s).state.cards = s.cards := by
  unfold approve_borrow_request
  repeat' split
  all_goals try rfl
  all_goals (dsimp only; split)
  all_goals rfl

/-- Rejection never writes the card table. -/
theorem reject_cards (b l : Nat) (s : LibState) :
    (reject_borrow_request b l s).state.cards = s.cards := by
  unfold reject_borrow_request
  repeat' split
  all_goals rfl

/-- Cancellation never writes the card table. -/
theorem cancel_cards (b r : Nat) (s : LibState) :
    (cancel_borrow_request b r s).state.cards = s.cards := by
  unfold cancel_borrow_request
  repeat' split
  all_goals rfl

/-- A return request never writes the card table. -/
theorem request_return_cards (d r : Nat) (s : LibState) :
    (request_return d r s).state.cards = s.cards := by
  unfold request_return
  repeat' split
  all_goals rfl

/-- Cancelling a return request never writes the card table. -/
theorem cancel_return_cards (d r : Nat) (s : LibState) :
    (cancel_return_request d r s).state.cards = s.cards := by
  unfold cancel_return_request
  repeat' split
  all_goals rfl

/-- The history auto-update never writes the card table. -/
theorem history_cards (r : Nat) (s : LibState) :
    (history_auto_update r s).cards = s.cards := by
  unfold history_auto_update
  split
  · rfl
  · rfl

/-- Submission either leaves the card table alone or commits the
auto-suspension of the submitting reader's Active card. -/
theorem submit_cards (ts : List Nat) (rid : Nat) (s : LibState) :
    (create_borrow_request ts rid s).state.cards = s.cards ∨
    (∃ card, findCard s rid = some card ∧ card.status = CardStatus.active ∧
      (create_borrow_request ts rid s).state.cards =
        updateCard rid (fun c => { c with status := .suspended }) s.cards) := by
  unfold create_borrow_request
  split
  · exact Or.inl rfl
  · rename_i card hcfind
    split
    · exact Or.inl rfl
    · dsimp only
      split
      · rename_i hcond
        refine Or.inr ⟨card, hcfind, ?_, rfl⟩
        simp only [Bool.and_eq_true, beq_iff_eq] at hcond
        exact hcond.2
      · split
        · exact Or.inl rfl
        · split
          · exact Or.inl rfl
          · split
            · exact Or.inl rfl
            · split
              · exact Or.inl rfl
              · exact Or.inl rfl

/-- Return processing either leaves the card table alone or replaces it by
the auto-unsuspend computation over the pre-state card table. -/
theorem process_return_cards (d : Nat) (cond : String) (hd : Bool)
    (fine : Option Nat) (s : LibState) :
    (process_return d cond hd fine s).state.cards = s.cards ∨
    (∃ rid s1, (process_return d cond hd fine s).state.cards =
      autoUnsuspendCards s s1 rid) := by
  unfold process_return
  repeat' split
  all_goals try exact Or.inl rfl
  all_goals exact Or.inr ⟨_, _, rfl⟩

/-- The auto-unsuspend step never disturbs a Blocked card: it only rewrites
the card of a reader whose card was found Suspended, and even then the write
is the no-op identity on every other reader's row. -/
theorem autoUnsuspend_blocked (s s1 : LibState) (rid r : Nat)
    (h : (findCard s r).map (fun c => c.status) = some CardStatus.blocked) :
    ((autoUnsuspendCards s s1 rid).find? (fun c => c.reader_id == r)).map
      (fun c => c.status) = some CardStatus.blocked := by
  unfold autoUnsuspendCards
  split
  · rename_i rc hrc
    split
    · rename_i hcond
      simp only [Bool.and_eq_true, beq_iff_eq] at hcond
      by_cases hrr : rid = r
      · subst hrr
        rw [hrc] at h
        simp only [Option.map_some'] at h
        rw [hcond.1.1] at h
        exact absurd (Option.some.inj h) (by decide)
      · rw [find_updateCard_other hrr (fun c => { c with status := .active })
          (fun c => rfl)]
        exact h
    · exact h
  · exact h

/-- C5 (amended): when a non-Blocked reader's card is recomputed by the
sweep, a line ≥ 30 days past due blocks the card first and short-circuits the
rest (no infraction is added and no line status changes); otherwise the card
can only become Blocked through a fresh Active-to-Overdue increment — with no
30-day line and no increment-eligible line the card never ends up Blocked and
the counter is unchanged, even when it already stands at 3 or more. -/
theorem C5_amended_theorem :
    (∀ s rid card, findCard s rid = some card → card.status ≠ CardStatus.blocked →
      (∃ d ∈ unreturnedOf s rid, over30 s.now d = true) →
      cardStatus (process_reader_infractions rid s) rid = some CardStatus.blocked ∧
      cardInfractions (process_reader_infractions rid s) rid =
        some card.infraction_count ∧
      (process_reader_infractions rid s).details = s.details) ∧
    (∀ s rid card, findCard s rid = some card → card.status ≠ CardStatus.blocked →
      (∀ d ∈ unreturnedOf s rid, over30 s.now d = false) →
      (∀ d ∈ unreturnedOf s rid, sweepIncrementEligible s.now d = false) →
      cardStatus (process_reader_infractions rid s) rid ≠ some CardStatus.blocked ∧
      cardInfractions (process_reader_infractions rid s) rid =
        some card.infraction_count) := by
  constructor
  · intro s rid card hc hnb hex
    rcases hex with ⟨d, hd, hov⟩
    have hany : (unreturnedOf s rid).any (over30 s.now) = true :=
      List.any_eq_true.mpr ⟨d, hd, hov⟩
    have hbl : (card.status == CardStatus.blocked) = false := by simp [hnb]
    have hfc : s.cards.find? (fun c => c.reader_id == rid) = some card := hc
    simp only [process_reader_infractions, hc, hbl, Bool.false_eq_true, if_false, hany,
      eq_self_iff_true, if_true]
    refine ⟨?_, ?_, trivial⟩
    · unfold cardStatus findCard
      rw [find_updateCard_self hfc (fun c => { c with status := .blocked })
        (fun c => rfl)]
      rfl
    · unfold cardInfractions findCard
      rw [find_updateCard_self hfc (fun c => { c with status := .blocked })
        (fun c => rfl)]
      rfl
  · intro s rid card hc hnb h30 helig
    have hany : (unreturnedOf s rid).any (over30 s.now) = false := by
      rw [List.any_eq_false]
      intro d hd
      simp [h30 d hd]
    obtain ⟨h1, h2, h4⟩ := sweepPass2_no_eligible s.now (unreturnedOf s rid)
      card.infraction_count helig
    have hbl : (card.status == CardStatus.blocked) = false := by simp [hnb]
    have hfc : s.cards.find? (fun c => c.reader_id == rid) = some card := hc
    simp only [process_reader_infractions, hc, hbl, Bool.false_eq_true, if_false, hany,
      h1, h2, h4, if_true]
    constructor
    · unfold cardStatus findCard
      split

      · rw [find_updateCard_self
          (find_updateCard_self hfc
            (fun c => { c with infraction_count := card.infraction_count }) (fun c => rfl))
          (fun c => { c with status := .suspended }) (fun c => rfl)]
        simp
      · split
        · rw [find_updateCard_self
            (find_updateCard_self hfc
              (fun c => { c with infraction_count := card.infraction_count }) (fun c => rfl))
            (fun c => { c with status := .active }) (fun c => rfl)]
          simp
        · rw [find_updateCard_self hfc
            (fun c => { c with infraction_count := card.infraction_count }) (fun c => rfl)]
          simp
          exact hnb
    · unfold cardInfractions findCard
      split
      · rw [find_updateCard_self
          (find_updateCard_self hfc
            (fun c => { c with infraction_count := card.infraction_count }) (fun c => rfl))
          (fun c => { c with status := .suspended }) (fun c => rfl)]
        rfl
      · split
        · rw [find_updateCard_self
            (find_updateCard_self hfc
              (fun c => { c with infraction_count := card.infraction_count }) (fun c => rfl))
            (fun c => { c with status := .active }) (fun c => rfl)]
          rfl
        · rw [find_updateCard_self hfc
            (fun c => { c with infraction_count := card.infraction_count }) (fun c => rfl)]
          rfl

/-- C5 witness: the amended theorem at the fixtures — the 35-days-overdue
reader is blocked by the first rule with no infraction added, and the reader
with counter 3 but no fresh increment stays unblocked with counter 3. -/
theorem C5_amended_witness :
    (cardStatus (process_reader_infractions 1 thirtyFiveDayState) 1 =
        some CardStatus.blocked ∧
      cardInfractions (process_reader_infractions 1 thirtyFiveDayState) 1 = some 0 ∧
      (process_reader_infractions 1 thirtyFiveDayState).details =
        thirtyFiveDayState.details) ∧
    (cardStatus (process_reader_infractions 1 accumulatedState) 1 ≠
        some CardStatus.blocked ∧
      cardInfractions (process_reader_infractions 1 accumulatedState) 1 = some 3) :=
  ⟨C5_amended_theorem.1 thirtyFiveDayState 1
      { reader_id := 1, card_type := .standard, status := .active, infraction_count := 0 }
      (by decide) (by decide)
      ⟨{ id := 6, borrow_slip_id := 5, book_id := 1, status := .active,
         return_date := some { day := 65, minute := 0 }, real_return_date := none },
       by decide, by decide⟩,
   C5_amended_theorem.2 accumulatedState 1
      { reader_id := 1, card_type := .standard, status := .active, infraction_count := 3 }
      (by decide) (by decide) (by decide) (by decide)⟩

/-- The infraction sweep never disturbs a Blocked card: sweeping the blocked
reader is the identity, and sweeping any other reader rewrites only that
reader's own row. -/
theorem sweep_preserves_blocked {s : LibState} {rid r : Nat}
    (h : cardStatus s r = some CardStatus.blocked) :
    cardStatus (process_reader_infractions rid s) r = some CardStatus.blocked := by
  by_cases hrr : rid = r
  · subst hrr
    rw [sweep_blocked h]
    exact h
  · unfold process_reader_infractions
    split
    · exact h
    · rename_i card hcard
      split
      · exact h
      · rename_i hnb
        dsimp only
        split
        · unfold cardStatus findCard
          dsimp only
          rw [find_updateCard_other hrr (fun c => { c with status := .blocked })
            (fun c => rfl)]
          exact h
        · unfold cardStatus findCard
          dsimp only
          split
          · rw [find_updateCard_other hrr (fun c => { c with status := .blocked })
              (fun c => rfl),
              find_updateCard_other hrr (fun c =>
                { c with infraction_count :=
                    (sweepPass2 s.now card.infraction_count (unreturnedOf s rid)).2.1 })
                (fun c => rfl)]
            exact h
          · split
            · rw [find_updateCard_other hrr (fun c => { c with status := .suspended })
                (fun c => rfl),
                find_updateCard_other hrr (fun c =>
                  { c with infraction_count :=
                      (sweepPass2 s.now card.infraction_count (unreturnedOf s rid)).2.1 })
                  (fun c => rfl)]
              exact h
            · split
              · rw [find_updateCard_other hrr (fun c => { c with status := .active })
                  (fun c => rfl),
                  find_updateCard_other hrr (fun c =>
                    { c with infraction_count :=
                        (sweepPass2 s.now card.infraction_count (unreturnedOf s rid)).2.1 })
                    (fun c => rfl)]
                exact h
              · rw [find_updateCard_other hrr (fun c =>
                    { c with infraction_count :=
                        (sweepPass2 s.now card.infraction_count (unreturnedOf s rid)).2.1 })
                    (fun c => rfl)]
                exact h

/-- C2: a Blocked reading card stays Blocked across every non-administrative
lending operation — submission, approval, rejection, cancellation, return
request, return cancellation, return processing, the infraction sweep and the
history auto-update — and the administrative unban is the only exit: on a
Blocked card of an existing reader it succeeds and always sets the card's
status to Active. -/
theorem C2_theorem :
    (∀ (op : Op) (s : LibState) (r : Nat),
      cardStatus s r = some CardStatus.blocked →
      cardStatus (applyOp op s) r = some CardStatus.blocked) ∧
    (∀ (s : LibState) (r : Nat),
      cardStatus s r = some CardStatus.blocked → readerExists s r = true →
      ∃ s', remove_ban r s = .ok s' ∧ cardStatus s' r = some CardStatus.active) := by
  constructor
  · intro op s r h
    cases op with
    | submit ts rid =>
      rcases submit_cards ts rid s with hc | ⟨card, hcf, hcs, hc⟩
      · exact (cardStatus_congr r hc).trans h
      · dsimp only [applyOp]
        unfold cardStatus findCard
        rw [hc]
        refine blocked_after_update s.cards r rid _ ?hpres ?hguard h
        case hpres => exact fun x => rfl
        case hguard =>
          intro hrid c hcfind hcb
          subst hrid
          have hce : card = c := by
            unfold findCard at hcf
            rw [hcf] at hcfind
            exact Option.some.inj hcfind
          rw [← hce, hcs] at hcb
          exact absurd hcb (by decide)
    | approve b l => exact (cardStatus_congr r (approve_cards b l s)).trans h
    | reject b l => exact (cardStatus_congr r (reject_cards b l s)).trans h
    | cancel b rd => exact (cardStatus_congr r (cancel_cards b rd s)).trans h
    | requestReturn d rd =>
      exact (cardStatus_congr r (request_return_cards d rd s)).trans h
    | cancelReturn d rd =>
      exact (cardStatus_congr r (cancel_return_cards d rd s)).trans h
    | processReturn d cond hdd fine =>
      rcases process_return_cards d cond hdd fine s with hc | ⟨rid, s1, hc⟩
      · exact (cardStatus_congr r hc).trans h
      · dsimp only [applyOp]
        unfold cardStatus findCard
        rw [hc]
        exact autoUnsuspend_blocked s s1 rid r h
    | sweep rid => exact sweep_preserves_blocked h
    | historyUpdate rid =>
      exact (cardStatus_congr r (history_cards rid s)).trans h
  · intro s r h hex
    obtain ⟨c, hfc, hcs⟩ := cardStatus_blocked_elim h
    refine ⟨{ s with
        cards := updateCard r (fun x => { x with status := .active }) s.cards },
      ?_, ?_⟩
    · unfold remove_ban
      rw [hex]
      rw [if_neg (by decide)]
      have hfc' : findCard s r = some c := hfc
      rw [hfc']
      dsimp only
      rw [hcs]
      rw [if_neg (by decide)]
    · unfold cardStatus findCard
      dsimp only
      rw [find_updateCard_self hfc (fun x => { x with status := .active })
        (fun x => rfl)]
      rfl

/-- C2 witness: at the blocked fixture, the sweep on the blocked reader keeps
the card Blocked and the administrative unban then succeeds and sets the card
Active. -/
theorem C2_witness :
    cardStatus (applyOp (Op.sweep 1) blockedReaderState) 1 =
      some CardStatus.blocked ∧
    ∃ s', remove_ban 1 blockedReaderState = .ok s' ∧
      cardStatus s' 1 = some CardStatus.active :=
  ⟨C2_theorem.1 (Op.sweep 1) blockedReaderState 1 (by decide),
   C2_theorem.2 blockedReaderState 1 (by decide) (by decide)⟩

end LMS
